import Mathlib

/-!
Verification of the vboxwrapper control plane (vboxwrapper.py and
vboxcontroller_4_3.py) against its natural-language specification.

The development shallowly embeds the program: machine integers and times are
modelled as `Nat`/`Int`/`ℚ`, fallible external (COM) calls are abstracted as
boolean / optional outcome oracles passed in as parameters, and Python's
implicit `None` return is modelled with `Option`.
-/

namespace VBoxWrapper

/-- A protocol reply line as produced by `send_reply(code, done, msg)`:
`done = true` renders the final-line separator `-`, `done = false` the
informational separator (space). -/
structure Reply where
  code : Nat
  done : Bool
  msg : String
deriving Repr, DecidableEq

/-- Number of final status lines in a reply list (a reply with `done = true`). -/
def finalCount (rs : List Reply) : Nat := rs.countP (fun r => r.done)

/-- Rendering of `send_reply`: `"%3d%s%s\r\n" % (code, sep, msg)` with `sep`
`-` for a final line and a space otherwise (all codes used are three-digit,
so `%3d` adds no padding). -/
def formatReply (r : Reply) : String :=
  toString r.code ++ (if r.done then "-" else " ") ++ r.msg ++ "\r\n"

/-!
## Retry loop

Nearly every backend call in `vboxcontroller_4_3.py` is wrapped in the same
loop:

    retries = N
    for retry in range(retries):
        if retry == (retries - 1):
            return False
        try:
            <attempt retry>
            break
        except Exception:
            time.sleep(delay)
            continue
    ... (fall through / return True)

The last loop iteration reports failure without making an attempt, so a loop
with `retries = N` makes at most `N - 1` attempts.  `attemptLoop attempt delay
i n` runs the loop from index `i` with `n` attempting iterations remaining
(`n = retries - 1 - i`); it returns whether the loop exited via `break`, the
number of attempts actually made, and the list of delays slept (one after
each failed attempt).
-/

/-- The attempting iterations of the retry loop; `attempt k` is the outcome of
the `k`-th try of the wrapped backend call (`true` = no exception). -/
def attemptLoop (attempt : Nat → Bool) (delay : ℚ) : Nat → Nat → Bool × Nat × List ℚ
  | _, 0 => (false, 0, [])
  | i, n + 1 =>
    if attempt i then (true, 1, [])
    else
      let r := attemptLoop attempt delay (i + 1) n
      (r.1, r.2.1 + 1, delay :: r.2.2)

/-- The whole `for retry in range(retries)` loop.  With `retries = 0` the loop
body never runs and the surrounding function falls through to `return True`. -/
def runRetry (attempt : Nat → Bool) (retries : Nat) (delay : ℚ) : Bool × Nat × List ℚ :=
  match retries with
  | 0 => (true, 0, [])
  | n + 1 => attemptLoop attempt delay 0 n

/-- Delay between launch attempts in `_safeLaunchVMProcess` (`time.sleep(0.6)`). -/
def launchDelay : ℚ := 6 / 10

/-- Delay between attempts in `_safeDisableNetAdpFromMachine` (`time.sleep(1)`). -/
def disableDelay : ℚ := 1

/-- Delay between attempts of `create_udp` / `delete_udp` / `_safeEnableCapture`
(`time.sleep(0.75)`). -/
def udpRetryDelay : ℚ := 3 / 4

/-- Delay between attempts of `_safeLockMachine` / `_safeUnlockMachine` /
`_safeNetOptions` / `_safeConsoleOptions` (`time.sleep(1)`). -/
def lockDelay : ℚ := 1

/-- The retry loop of `_safeLaunchVMProcess` (`retries = 4`, delay 0.6):
result, attempts made, delays slept. -/
def safeLaunchRun (launchOk : Nat → Bool) : Bool × Nat × List ℚ :=
  runRetry launchOk 4 launchDelay

/-- `_safeLaunchVMProcess`: the retry loop, then
`self.progress.waitForCompletion(-1)` whose exception path returns `False`
(`waitOk` is the outcome of that wait). -/
def safeLaunchVMProcess (launchOk : Nat → Bool) (waitOk : Bool) : Bool :=
  if (safeLaunchRun launchOk).1 then waitOk else false

/-- The retry loop of `_safeDisableNetAdpFromMachine` (`retries = 6`, delay 1). -/
def safeDisableRun (ok : Nat → Bool) : Bool × Nat × List ℚ :=
  runRetry ok 6 disableDelay

/-- `_safeDisableNetAdpFromMachine` for one adapter: `ok k` is the outcome of
the `k`-th try of the get-adapter / trace-off / detach / disable sequence. -/
def safeDisableNetAdp (ok : Nat → Bool) : Bool :=
  (safeDisableRun ok).1

/-- `_safeLockMachine` (`retries = 4`, delay 1): `lockOk k` is the outcome of
the `k`-th `self.mach.lockMachine(self.session, 1)` call. -/
def safeLockMachine (lockOk : Nat → Bool) : Bool :=
  (runRetry lockOk 4 lockDelay).1

/-- `_safeUnlockMachine` (`retries = 4`, delay 1). -/
def safeUnlockMachine (unlockOk : Nat → Bool) : Bool :=
  (runRetry unlockOk 4 lockDelay).1

/-- `_safeEnableCapture` (`retries = 4`, delay 0.75). -/
def safeEnableCapture (capOk : Nat → Bool) : Bool :=
  (runRetry capOk 4 udpRetryDelay).1

/-!
## Machine states and the network-adapter model
-/

/-- `MachineState_FirstOnline` of the VirtualBox 4.3 SDK (`Running`). -/
def MachineState_FirstOnline : Nat := 5

/-- `MachineState_LastOnline` of the VirtualBox 4.3 SDK. -/
def MachineState_LastOnline : Nat := 18

/-- `MachineState_Paused` of the VirtualBox 4.3 SDK. -/
def MachineState_Paused : Nat := 6

/-- The online test used by `start`, `create_udp` and `delete_udp`:
`self.mach.state >= MachineState_FirstOnline and
 self.mach.state <= MachineState_LastOnline`. -/
def onlineState (s : Nat) : Bool :=
  MachineState_FirstOnline ≤ s && s ≤ MachineState_LastOnline

/-- `constants.NetworkAttachmentType_*` values used by the controller. -/
inductive AttachType where
  | NullAttach
  | Generic
deriving Repr, DecidableEq

/-- The mutable backend state of one network adapter (`INetworkAdapter`):
the fields the controller reads or writes. -/
structure NetAdp where
  enabled : Bool := true
  cableConnected : Bool := false
  attachment : AttachType := .NullAttach
  genericDriver : String := ""
  propSport : String := ""
  propDest : String := ""
  propDport : String := ""
  traceEnabled : Bool := false
  traceFile : String := ""
deriving Repr, DecidableEq

/-- The adapter mutation performed by a successful `create_udp` attempt
(`vboxcontroller_4_3.py` lines 228-238): cable connected, attachment reset to
Null, then Generic/"UDPTunnel" with the three properties; the destination
address property is set to `daddr` exactly as passed in. -/
def createUdpApply (adp : NetAdp) (sport daddr dport : String) : NetAdp :=
  { adp with
    cableConnected := true
    attachment := .Generic
    genericDriver := "UDPTunnel"
    propSport := sport
    propDest := daddr
    propDport := dport }

/-- The adapter mutation performed by a successful `delete_udp` attempt
(lines 260-264): attachment Null, cable disconnected. -/
def deleteUdpApply (adp : NetAdp) : NetAdp :=
  { adp with attachment := .NullAttach, cableConnected := false }

/-- A stored UDP tunnel configuration (`UDPConnection`): local port, remote
host, remote port, all kept as the strings received on the wire. -/
structure UDPConn where
  lport : String
  rhost : String
  rport : String
deriving Repr, DecidableEq

/-- The per-slot UDP branch of `_net_options` (lines 385-399): enable the
adapter, connect the cable and attach the UDP tunnel; a stored remote host
equal to the literal `"localhost"` is rewritten to `"127.0.0.1"`
("Temporary hack around VBox-UDP patch limitation: inability to use DNS"). -/
def netOptionsUdpApply (adp : NetAdp) (u : UDPConn) : NetAdp :=
  let daddr := if u.rhost = "localhost" then "127.0.0.1" else u.rhost
  { adp with
    enabled := true
    cableConnected := true
    attachment := .Generic
    genericDriver := "UDPTunnel"
    propSport := u.lport
    propDest := daddr
    propDport := u.rport }

/-- `_safeDetachNetAdp` (lines 499-511): adapter enabled but attachment Null
and cable disconnected ("present but inert"). -/
def detachNetAdpApply (adp : NetAdp) : NetAdp :=
  { adp with enabled := true, attachment := .NullAttach, cableConnected := false }

/-!
## Controller operations (`VBoxController_4_3`)
-/

/-- Python functions without an explicit `return` yield `None`; a controller
result is therefore an `Option Bool`, and the wrapper tests it for
truthiness (`if not instance.reset(): ...`). -/
def pyTruthy : Option Bool → Bool
  | none => false
  | some b => b

/-- `VBoxController_4_3.reset` (lines 128-139): a single
`self.console.reset()` + `waitForCompletion` in a `try`.  On an exception the
`except` branch returns `True`; on success the function falls off the end and
returns `None`. -/
def controllerReset (resetRaises : Bool) : Option Bool :=
  if resetRaises then some true else none

/-- `VBoxController_4_3.suspend` (lines 176-183): single `console.pause()`
call, `False` on exception. -/
def controllerSuspend (pauseRaises : Bool) : Bool :=
  !pauseRaises

/-- `VBoxController_4_3.resume` (lines 185-195): rejected unless the machine
state is `Paused`, then a single `console.resume()` call. -/
def controllerResume (machState : Nat) (resumeRaises : Bool) : Bool :=
  if machState ≠ MachineState_Paused then false
  else !resumeRaises

/-- The abstracted outcomes of the backend calls made by
`VBoxController_4_3.stop` (lines 141-174). -/
structure StopEnv where
  /-- `self.VBoxBug9239Workaround and sys.platform == 'win32'`: power off via
  an out-of-band `VBoxManage controlvm poweroff` instead of the API. -/
  bugWorkaroundWin32 : Bool
  /-- whether `self.console.powerDown()` / `waitForCompletion` raises. -/
  powerDownRaises : Bool
  /-- per-attempt outcome of `lockMachine` inside `_safeLockMachine`. -/
  lockOk : Nat → Bool
  /-- whether `self.session.machine` can be read. -/
  sessionMachineOk : Bool
  /-- per-adapter, per-attempt outcome inside `_safeDisableNetAdpFromMachine`. -/
  disableOk : Nat → Nat → Bool
  /-- `int(self.nics)`: number of configured adapters. -/
  nics : Nat
  /-- outcome of `saveSettings` (`_safeSaveSettings`). -/
  saveOk : Bool
  /-- per-attempt outcome of `unlockMachine` inside `_safeUnlockMachine`. -/
  unlockOk : Nat → Bool

/-- The `for vnic in range(0, int(self.nics))` loop of `stop`: returns `true`
as soon as one `_safeDisableNetAdpFromMachine` call fails (the source then
returns `True` "so VM state in GNS3 can become stopped"), `false` when every
adapter was disabled. -/
def stopDisableLoopFails (e : StopEnv) : Bool :=
  (List.range e.nics).any (fun v => !(safeDisableNetAdp (e.disableOk v)))

/-- `VBoxController_4_3.stop`: power down (out-of-band on win32, else the API
call whose exception path returns `True` immediately), then lock the machine
(failure returns `True`), read `session.machine` (failure returns `True`),
disable every adapter (failure returns `True`), save settings and unlock
(results explicitly ignored), and return `True`. -/
def controllerStop (e : StopEnv) : Bool :=
  if !e.bugWorkaroundWin32 && e.powerDownRaises then true
  else if !(safeLockMachine e.lockOk) then true
  else if !e.sessionMachineOk then true
  else if stopDisableLoopFails e then true
  else true

/-- The abstracted per-attempt outcome of one whole `create_udp` /
`delete_udp` try body (`session.machine`, `getNetworkAdapter`, the property
writes and `saveSettings` together). -/
def ctrlUdpRetry (attemptOk : Nat → Bool) : Bool × Nat × List ℚ :=
  runRetry attemptOk 4 udpRetryDelay

/-- `VBoxController_4_3.create_udp` (lines 215-245): `True` when no machine
is known; when the machine is online, four loop iterations (at most three
attempts) and `True` on success, `False` once exhausted; when the machine is
offline the function falls off the end (`None`).  On the first successful
attempt the adapter is mutated by `createUdpApply` (the ports pass through
`str(...)`, the destination address is passed verbatim). -/
def controllerCreateUdp (machKnown : Bool) (machState : Nat) (attemptOk : Nat → Bool)
    (adp : NetAdp) (sport daddr dport : String) : Option Bool × NetAdp :=
  if !machKnown then (some true, adp)
  else if onlineState machState then
    let r := ctrlUdpRetry attemptOk
    if r.1 then (some true, createUdpApply adp sport daddr dport)
    else (some false, adp)
  else (none, adp)

/-- `VBoxController_4_3.delete_udp` (lines 247-271): same structure as
`create_udp` with the detach mutation. -/
def controllerDeleteUdp (machKnown : Bool) (machState : Nat) (attemptOk : Nat → Bool)
    (adp : NetAdp) : Option Bool × NetAdp :=
  if !machKnown then (some true, adp)
  else if onlineState machState then
    let r := ctrlUdpRetry attemptOk
    if r.1 then (some true, deleteUdpApply adp)
    else (some false, adp)
  else (none, adp)

/-- Backend operations performed by `VBoxController_4_3.start`, in order. -/
inductive BOp where
  | findMachine
  | getMaxAdapters
  | getSession
  | netOptions
  | consoleOptions
  | launch
  | unlock
  | getConsole
deriving Repr, DecidableEq

/-- Whether a backend operation of `start` mutates backend or instance state
(`findMachine` and `getMaxAdapters` are pure queries; `getSession` creates an
unbound session object without locking anything). -/
def mutatesB : BOp → Bool
  | .findMachine => false
  | .getMaxAdapters => false
  | .getSession => false
  | _ => true

/-- Abstracted outcomes of the backend calls made by
`VBoxController_4_3.start` (lines 73-120). -/
structure StartEnv where
  /-- `vbox.findMachine(vmname)`: the machine state when found, `none` when
  the lookup raises. -/
  machState : Option Nat
  /-- outcome of `mgr.getSessionObject` (`_safeGetSessionObject`). -/
  getSessionOk : Bool
  /-- per-attempt outcome of a whole `_net_options()` run (`_safeNetOptions`,
  4 iterations). -/
  netOptsOk : Nat → Bool
  /-- per-attempt outcome of a whole `_console_options()` run
  (`_safeConsoleOptions`, 4 iterations). -/
  consoleOptsOk : Nat → Bool
  /-- per-attempt outcome of `launchVMProcess` (`_safeLaunchVMProcess`). -/
  launchOk : Nat → Bool
  /-- outcome of `progress.waitForCompletion(-1)`. -/
  waitOk : Bool
  /-- `self.progress.percent` after the launch completed. -/
  progressPercent : Nat
  /-- per-attempt outcome of `unlockMachine` (`_safeUnlockMachine`). -/
  unlockOk : Nat → Bool
  /-- whether `self.session.console` can be read. -/
  consoleOk : Bool

/-- `VBoxController_4_3.start`: find the machine (failure aborts), reject an
online machine, query the chipset's maximum adapter count, acquire a session,
apply network options (retried as a unit), apply console options (retried as
a unit), launch beyond the retry budget, check the completion percentage
(below 100 unlocks and fails), and finally grab the console.  Returns the
result together with the ordered backend-operation trace. -/
def controllerStart (e : StartEnv) : Bool × List BOp :=
  match e.machState with
  | none => (false, [.findMachine])
  | some s =>
    if onlineState s then (false, [.findMachine])
    else if !e.getSessionOk then (false, [.findMachine, .getMaxAdapters, .getSession])
    else if !(runRetry e.netOptsOk 4 lockDelay).1 then
      (false, [.findMachine, .getMaxAdapters, .getSession, .netOptions])
    else if !(runRetry e.consoleOptsOk 4 lockDelay).1 then
      (false, [.findMachine, .getMaxAdapters, .getSession, .netOptions, .consoleOptions])
    else if !safeLaunchVMProcess e.launchOk e.waitOk then
      (false, [.findMachine, .getMaxAdapters, .getSession, .netOptions, .consoleOptions, .launch])
    else if e.progressPercent ≠ 100 then
      (false, [.findMachine, .getMaxAdapters, .getSession, .netOptions, .consoleOptions, .launch,
        .unlock])
    else if !e.consoleOk then
      (false, [.findMachine, .getMaxAdapters, .getSession, .netOptions, .consoleOptions, .launch,
        .getConsole])
    else
      (true, [.findMachine, .getMaxAdapters, .getSession, .netOptions, .consoleOptions, .launch,
        .getConsole])

/-!
## Reply cache (`check_cache` / `send_reply` / `handle_one_request`)

The cache is a single process-wide slot `(CACHED_REQUEST, CACHED_REPLY,
CACHED_TIME)`.  Time is modelled as `ℚ`.
-/

/-- The process-wide reply-cache slot. -/
structure CacheState where
  cachedRequest : String
  cachedReply : String
  cachedTime : ℚ
deriving Repr, DecidableEq

/-- `check_cache(request)` at wall-clock `now`: a miss when more than 1.0
time unit elapsed since `CACHED_TIME` or the raw line differs from
`CACHED_REQUEST`; on a hit `CACHED_TIME` is zeroed ("Reset timer disallows to
use same cache more than 2 times in a row") and the cached reply is written.
Returns (hit, new cache, lines written). -/
def check_cache (c : CacheState) (now : ℚ) (request : String) :
    Bool × CacheState × List String :=
  if now - c.cachedTime > 1 then (false, c, [])
  else if request ≠ c.cachedRequest then (false, c, [])
  else (true, { c with cachedTime := 0 }, [c.cachedReply])

/-- The cache effect of a sequence of `send_reply` calls at wall-clock `now`:
each call overwrites `CACHED_REPLY` with the rendered line and stamps
`CACHED_TIME = now`.  Returns the final cache and the lines written. -/
def sendReplies (now : ℚ) (c : CacheState) : List Reply → CacheState × List String
  | [] => (c, [])
  | r :: rs =>
    let line := formatReply r
    let res := sendReplies now { c with cachedReply := line, cachedTime := now } rs
    (res.1, line :: res.2)

/-- Result of `handle_one_request` on one raw line: lines written, new cache
slot, and whether the request was dispatched (handler invoked) rather than
served from the cache. -/
structure HandleRes where
  output : List String
  cache : CacheState
  dispatched : Bool
deriving Repr, DecidableEq

/-- `handle_one_request`, with the parse/dispatch/handler stage abstracted as
`dispatchFn` (the reply lines a request line produces): consult the cache
first and return on a hit; on a miss store the raw line in `CACHED_REQUEST`,
strip the line terminator, dispatch, and let each `send_reply` update the
cache slot. -/
def handleOneRequest (dispatchFn : String → List Reply) (c : CacheState) (now : ℚ)
    (request : String) : HandleRes :=
  let hit := check_cache c now request
  if hit.1 then ⟨hit.2.2, hit.2.1, false⟩
  else
    let c1 : CacheState := { c with cachedRequest := request }
    let replies := dispatchFn request.trimRight
    let res := sendReplies now c1 replies
    ⟨res.2, res.1, true⟩

/-!
## Command dispatch (`VBoxWrapperRequestHandler.handle_one_request`)
-/

/-- The static command table `VBoxWrapperRequestHandler.modules`:
`(module, command) → (minArgs, maxArgs)`. -/
def modulesTable : List (String × List (String × Nat × Nat)) :=
  [("vboxwrapper",
    [("version", 0, 0), ("parser_test", 0, 10), ("module_list", 0, 0), ("cmd_list", 1, 1),
     ("working_dir", 1, 1), ("reset", 0, 0), ("close", 0, 0), ("stop", 0, 0)]),
   ("vbox",
    [("version", 0, 0), ("vm_list", 0, 0), ("find_vm", 1, 1), ("rename", 2, 2),
     ("create", 2, 2), ("delete", 1, 1), ("setattr", 3, 3), ("create_nic", 2, 2),
     ("create_udp", 5, 5), ("delete_udp", 2, 2), ("create_capture", 3, 3),
     ("delete_capture", 2, 2), ("start", 1, 1), ("stop", 1, 1), ("reset", 1, 1),
     ("status", 1, 1), ("suspend", 1, 1), ("resume", 1, 1), ("clean", 1, 1)])]

/-- `module in self.modules.keys()`. -/
def moduleKnown (m : String) : Bool :=
  (modulesTable.lookup m).isSome

/-- `self.modules[module][command]`: the declared `(minArgs, maxArgs)`.
The source reads it inside a `try`, replying 204 on a `KeyError`. -/
def tableLookup (m c : String) : Option (Nat × Nat) :=
  match modulesTable.lookup m with
  | none => none
  | some cmds => cmds.lookup c

/-- The `(module, command)` pairs for which a `do_<module>_<command>` method
is defined on `VBoxWrapperRequestHandler`.  The source tests
`hasattr(self, 'do_%s_%s' % (module, command))`; for the two module names
occurring in the table the method-name rendering is injective (the names
`do_vboxwrapper_...` and `do_vbox_...` differ at a non-underscore position),
so for a known module the `hasattr` test is exactly membership here. -/
def handlerPairs : List (String × String) :=
  [("vboxwrapper", "version"), ("vboxwrapper", "parser_test"), ("vboxwrapper", "module_list"),
   ("vboxwrapper", "cmd_list"), ("vboxwrapper", "working_dir"), ("vboxwrapper", "reset"),
   ("vboxwrapper", "close"), ("vboxwrapper", "stop"),
   ("vbox", "version"), ("vbox", "vm_list"), ("vbox", "find_vm"), ("vbox", "rename"),
   ("vbox", "create"), ("vbox", "delete"), ("vbox", "setattr"), ("vbox", "create_nic"),
   ("vbox", "create_udp"), ("vbox", "delete_udp"), ("vbox", "create_capture"),
   ("vbox", "delete_capture"), ("vbox", "start"), ("vbox", "stop"), ("vbox", "reset"),
   ("vbox", "status"), ("vbox", "suspend"), ("vbox", "resume"), ("vbox", "clean")]

/-- `hasattr(self, 'do_%s_%s' % (module, command))`. -/
def hasHandler (m c : String) : Bool :=
  handlerPairs.contains (m, c)

/-- The message of the 203 reply:
`"Bad number of parameters (%d with min/max=%d/%d)"`. -/
def badParamMsg (n mn mx : Nat) : String :=
  "Bad number of parameters (" ++ toString n ++ " with min/max=" ++ toString mn ++ "/" ++
    toString mx ++ ")"

/-- Outcome of the validation chain of `handle_one_request`: an error reply,
or the invocation of exactly one handler with the argument list. -/
inductive DispOut where
  | reply (r : Reply)
  | invoke (m c : String) (data : List String)
deriving Repr, DecidableEq

/-- The parse/validation chain of `handle_one_request` on the token list:
fewer than two tokens replies 200; an unknown module 201; a missing
`do_<module>_<command>` method 202; a `KeyError` on the arity lookup 204
("Unknown Exception"); an argument count outside `[min, max]` 203; otherwise
the matching handler is invoked with the remaining tokens. -/
def handleTokens : List String → DispOut
  | m :: c :: data =>
    if !moduleKnown m then
      .reply ⟨201, true, "Unknown module '" ++ m ++ "'"⟩
    else if !hasHandler m c then
      .reply ⟨202, true, "Unknown command '" ++ c ++ "'"⟩
    else
      match tableLookup m c with
      | none => .reply ⟨204, true, "Unknown Exception"⟩
      | some (mn, mx) =>
        if data.length < mn || data.length > mx then
          .reply ⟨203, true, badParamMsg data.length mn mx⟩
        else
          .invoke m c data
  | _ => .reply ⟨200, true, "At least a module and a command must be specified"⟩

/-!
## Instance registry and handlers

`VBOX_INSTANCES` is modelled as an association list with unique keys.  An
`xVBOXInstance` keeps its protocol-settable attributes plus, as abstractions
of its controller's backend, the machine state (`vbc.mach`, `none` when the
backend machine was never found) and the outcomes of the backend calls its
lifecycle methods make.
-/

/-- Decimal value of a digit list. -/
def digitsToNat (l : List Char) : Nat :=
  l.foldl (fun n c => n * 10 + (c.toNat - '0'.toNat)) 0

/-- Python's `int(...)` on a protocol token — an optional minus sign followed
by decimal digits; anything else raises `ValueError`, modelled as `none`
(the whitespace framing and `+` sign `int` also accepts never occur in the
tokens at issue). -/
def pyInt (s : String) : Option Int :=
  match s.data with
  | [] => none
  | '-' :: rest =>
    if rest ≠ [] ∧ rest.all (fun c => c.isDigit) then some (-(digitsToNat rest : Int)) else none
  | l => if l.all (fun c => c.isDigit) then some (digitsToNat l) else none

/-- One `xVBOXInstance` / `VBoxDeviceInstance`.  String attributes are kept
as received (the source coerces the literal strings `"True"`/`"False"` to
booleans for any attribute before storing; only the boolean-typed fields are
affected in a way the claims can observe).  The trailing fields abstract this
instance's controller backend. -/
structure Inst where
  console : String := ""
  image : String := ""
  nics : String := "6"
  udp : List (Int × UDPConn) := []
  capture : List (Int × String) := []
  netcard : String := "automatic"
  guestcontrol_user : String := ""
  guestcontrol_password : String := ""
  headless_mode : Bool := false
  console_support : Bool := false
  console_telnet_server : Bool := false
  /-- `self.process` (assigned nowhere in the source, hence `false` unless a
  collaborator sets it). -/
  process : Bool := false
  /-- whether `start` ran at least once: `vbc.start` sets `self.vmname`
  unconditionally as its first statement, and the controller's other
  lifecycle methods read `self.vmname` outside of any `try`. -/
  started : Bool := false
  /-- `vbc.mach`: the backend machine's state when `findMachine` succeeded. -/
  mach : Option Nat := none
  /-- abstracted result of `instance.start()`. -/
  startResult : Bool := true
  /-- abstracted result of `instance.stop()` (the 4.3 controller's `stop`
  always returns `True`; the wrapper treats the call as a black box). -/
  stopResult : Bool := true
  /-- whether `console.reset()` / `waitForCompletion` raises. -/
  resetRaises : Bool := false
  /-- whether `console.pause()` raises. -/
  pauseRaises : Bool := false
  /-- whether `console.resume()` raises. -/
  resumeRaises : Bool := false
deriving Repr, DecidableEq

/-- The process-wide `VBOX_INSTANCES` dictionary. -/
abbrev Registry := List (String × Inst)

/-- Dictionary assignment `d[k] = v` (overwrite or append). -/
def setKey {κ α : Type} [DecidableEq κ] (k : κ) (v : α) : List (κ × α) → List (κ × α)
  | [] => [(k, v)]
  | (k', v') :: r => if k' = k then (k, v) :: r else (k', v') :: setKey k v r

/-- Dictionary deletion `del d[k]`. -/
def delKey {κ α : Type} [DecidableEq κ] (k : κ) (l : List (κ × α)) : List (κ × α) :=
  l.filter (fun p => p.1 ≠ k)

/-- Exceptions a handler can let escape (`handle_one_request` wraps handler
invocation in no `try`). -/
inductive PyExn where
  | keyError
  | valueError
  | attributeError
deriving Repr, DecidableEq

/-- Controller invocations a handler performs, with the (possibly discarded)
result, in order. -/
inductive Act where
  | ctrlStart (name : String) (result : Bool)
  | ctrlStop (name : String) (result : Bool)
  | ctrlCreateUdp (vnic sport daddr dport : String) (result : Option Bool)
  | ctrlDeleteUdp (vnic : String) (result : Option Bool)
deriving Repr, DecidableEq

/-- Outcome of one handler invocation: the reply lines sent, the registry
afterwards and the controller calls made — or an escaped exception. -/
inductive HOut where
  | ok (replies : List Reply) (reg : Registry) (acts : List Act)
  | exn (e : PyExn)
deriving Repr, DecidableEq

/-- Abstracted process environment and backend outcomes read by handlers. -/
structure WrapEnv where
  /-- `g_vboxManager` loaded. -/
  managerPresent : Bool := true
  /-- `VBOXVER`. -/
  vboxVersion : String := "4.3.12"
  /-- the `float(major.minor) < VBOXVER_REQUIRED` comparison. -/
  versionTooOld : Bool := false
  /-- win32 with no `VBOX_INSTALL_PATH` in the environment. -/
  win32NoInstallPath : Bool := false
  /-- backend machine names (`vm_list`). -/
  machines : List String := []
  /-- whether `vbox.findMachine` succeeds for a name (`find_vm`). -/
  findVmOk : String → Bool := fun _ => false
  /-- whether `os.chdir` succeeds for a path (`working_dir`). -/
  chdirOk : String → Bool := fun _ => true
  /-- `e.strerror` of a failed `chdir`. -/
  chdirStrerror : String := ""
  /-- `socket.gethostbyname` (`UDPConnection.resolve_names`); `none` when
  resolution fails, in which case the stored host is left unchanged. -/
  resolveHost : String → Option String := fun _ => none
  /-- abstracted result of `vbc.create_udp` (discarded by the handler). -/
  ctrlCreateUdpResult : Option Bool := some true
  /-- abstracted result of `vbc.delete_udp` (discarded by the handler). -/
  ctrlDeleteUdpResult : Option Bool := some true
  /-- `self.VBoxBug9239Workaround and sys.platform == 'win32'`: whether
  `stop` powers off through the out-of-band `VBoxManage` subprocess (whose
  command string reads `self.vmname` outside any `try`) instead of the API
  call inside a `try`. -/
  bugWorkaroundWin32 : Bool := false

/-- `"unable to find VBox '%s'"` with code 208, the shared
unknown-object reply. -/
def unkObjReply (name : String) : Reply :=
  ⟨208, true, "unable to find VBox '" ++ name ++ "'"⟩

/-- `__vbox_create(dev_type, name)`: 1 when the device type is unknown (the
only `vbox_classes` key is `"vbox"`) or the name is already registered,
otherwise insert a fresh `VBoxDeviceInstance` and return 0. -/
def vboxCreate (reg : Registry) (devType name : String) : Nat × Registry :=
  if devType ≠ "vbox" then (1, reg)
  else if (List.lookup name reg).isSome then (1, reg)
  else (0, setKey name {} reg)

/-- `__vbox_delete(name)`: 1 when the name is unregistered; when the instance
has an active process, `instance.stop()` runs first and a `False` result
aborts with 1 leaving the registry unchanged; otherwise the entry is
removed and 0 returned. -/
def vboxDelete (reg : Registry) (name : String) : Nat × Registry × List Act :=
  match List.lookup name reg with
  | none => (1, reg, [])
  | some i =>
    if i.process then
      if !i.stopResult then (1, reg, [.ctrlStop name i.stopResult])
      else (0, delKey name reg, [.ctrlStop name i.stopResult])
    else (0, delKey name reg, [])

/-- The `valid_attr_names` allow-list of `xVBOXInstance`. -/
def validAttrNames : List String :=
  ["image", "console", "nics", "netcard", "guestcontrol_user", "guestcontrol_password",
   "headless_mode", "console_support", "console_telnet_server"]

/-- Truthiness of a `setattr` value for a boolean-typed attribute: the
literals `"True"`/`"False"` are coerced to booleans first; any other string
is stored as-is and is truthy exactly when non-empty. -/
def pyBoolOf (v : String) : Bool :=
  if v = "True" then true else if v = "False" then false else v ≠ ""

/-- The assignment performed by `do_vbox_setattr` for an allow-listed
attribute. -/
def setAttr (i : Inst) (attr v : String) : Inst :=
  if attr = "image" then { i with image := v }
  else if attr = "console" then { i with console := v }
  else if attr = "nics" then { i with nics := v }
  else if attr = "netcard" then { i with netcard := v }
  else if attr = "guestcontrol_user" then { i with guestcontrol_user := v }
  else if attr = "guestcontrol_password" then { i with guestcontrol_password := v }
  else if attr = "headless_mode" then { i with headless_mode := pyBoolOf v }
  else if attr = "console_support" then { i with console_support := pyBoolOf v }
  else { i with console_telnet_server := pyBoolOf v }

/-- `do_vboxwrapper_version`. -/
def do_vboxwrapper_version (_env : WrapEnv) (reg : Registry) (_data : List String) : HOut :=
  .ok [⟨100, true, "0.9"⟩] reg []

/-- `do_vboxwrapper_parser_test`: one informational line per argument, then a
final OK. -/
def do_vboxwrapper_parser_test (_env : WrapEnv) (reg : Registry) (data : List String) : HOut :=
  .ok (data.enum.map (fun p =>
        ⟨101, false, "arg " ++ toString p.1 ++ " (len " ++ toString p.2.length ++ "): \"" ++
          p.2 ++ "\""⟩) ++ [⟨100, true, "OK"⟩]) reg []

/-- `do_vboxwrapper_module_list`. -/
def do_vboxwrapper_module_list (_env : WrapEnv) (reg : Registry) (_data : List String) : HOut :=
  .ok ((modulesTable.map (fun p => (⟨101, false, p.1⟩ : Reply))) ++ [⟨100, true, "OK"⟩]) reg []

/-- `do_vboxwrapper_cmd_list`. -/
def do_vboxwrapper_cmd_list (_env : WrapEnv) (reg : Registry) (data : List String) : HOut :=
  match data with
  | [m] =>
    match modulesTable.lookup m with
    | none => .ok [⟨201, true, "unknown module '" ++ m ++ "'"⟩] reg []
    | some cmds =>
      .ok ((cmds.map (fun p =>
            (⟨101, false, p.1 ++ " (min/max args: " ++ toString p.2.1 ++ "/" ++
              toString p.2.2 ++ ")"⟩ : Reply))) ++ [⟨100, true, "OK"⟩]) reg []
  | _ => .exn .valueError

/-- `do_vboxwrapper_working_dir`: sends a final OK line before attempting the
`chdir`, then a second final line reporting the outcome. -/
def do_vboxwrapper_working_dir (env : WrapEnv) (reg : Registry) (data : List String) : HOut :=
  match data with
  | [d] =>
    .ok ([⟨100, true, "OK"⟩] ++
      (if env.chdirOk d then [⟨100, true, "OK"⟩]
       else [⟨204, true, "chdir: " ++ env.chdirStrerror⟩])) reg []
  | _ => .exn .valueError

/-- `cleanup()`: stop every instance with an active process and empty the
registry. -/
def cleanupActs (reg : Registry) : List Act :=
  reg.filterMap (fun p => if p.2.process then some (.ctrlStop p.1 p.2.stopResult) else none)

/-- `do_vboxwrapper_reset`: `cleanup()` then a final OK. -/
def do_vboxwrapper_reset (_env : WrapEnv) (reg : Registry) (_data : List String) : HOut :=
  .ok [⟨100, true, "OK"⟩] [] (cleanupActs reg)

/-- `do_vboxwrapper_close` (the connection-close flag is outside this model). -/
def do_vboxwrapper_close (_env : WrapEnv) (reg : Registry) (_data : List String) : HOut :=
  .ok [⟨100, true, "OK"⟩] reg []

/-- `do_vboxwrapper_stop` (the server shutdown flag is outside this model). -/
def do_vboxwrapper_stop (_env : WrapEnv) (reg : Registry) (_data : List String) : HOut :=
  .ok [⟨100, true, "OK"⟩] reg []

/-- `do_vbox_version`. -/
def do_vbox_version (env : WrapEnv) (reg : Registry) (_data : List String) : HOut :=
  if env.managerPresent then
    if env.versionTooOld then
      .ok [⟨212, true, "Detected VirtualBox version " ++ env.vboxVersion ++
        ", which is too old.\nMinimum required is: 4.1"⟩] reg []
    else .ok [⟨100, true, env.vboxVersion⟩] reg []
  else if env.win32NoInstallPath then
    .ok [⟨212, true, "VirtualBox is not installed."⟩] reg []
  else
    .ok [⟨212, true, "Failed to load vboxapi, please check your VirtualBox installation."⟩] reg []

/-- `do_vbox_vm_list`: one informational line per backend machine, then a
final OK. -/
def do_vbox_vm_list (env : WrapEnv) (reg : Registry) (_data : List String) : HOut :=
  .ok ((if env.managerPresent then env.machines.map (fun n => (⟨101, false, n⟩ : Reply)) else [])
    ++ [⟨100, true, "OK"⟩]) reg []

/-- `do_vbox_find_vm`. -/
def do_vbox_find_vm (env : WrapEnv) (reg : Registry) (data : List String) : HOut :=
  match data with
  | [n] =>
    if env.findVmOk n then .ok [⟨100, true, "OK"⟩] reg []
    else .ok [⟨208, true, "unable to find vm " ++ n⟩] reg []
  | _ => .exn .valueError

/-- `do_vbox_rename`: moves the entry to the new key (a plain dictionary
re-insertion; all state is preserved). -/
def do_vbox_rename (_env : WrapEnv) (reg : Registry) (data : List String) : HOut :=
  match data with
  | [old, new] =>
    match List.lookup old reg with
    | some i =>
      .ok [⟨100, true, "VBox '" ++ old ++ "' renamed to '" ++ new ++ "'"⟩]
        (delKey old (setKey new i reg)) []
    | none =>
      .ok [⟨206, true, "Unable to rename VBox instance from '" ++ old ++ "'"⟩] reg []
  | _ => .exn .valueError

/-- `do_vbox_create`. -/
def do_vbox_create (_env : WrapEnv) (reg : Registry) (data : List String) : HOut :=
  match data with
  | [t, n] =>
    let r := vboxCreate reg t n
    if r.1 = 0 then .ok [⟨100, true, "VBox '" ++ n ++ "' created"⟩] r.2 []
    else .ok [⟨206, true, "Unable to create VBox instance '" ++ n ++ "'"⟩] r.2 []
  | _ => .exn .valueError

/-- `do_vbox_delete`. -/
def do_vbox_delete (_env : WrapEnv) (reg : Registry) (data : List String) : HOut :=
  match data with
  | [n] =>
    let r := vboxDelete reg n
    if r.1 = 0 then .ok [⟨100, true, "VBox '" ++ n ++ "' deleted"⟩] r.2.1 r.2.2
    else .ok [⟨207, true, "unable to delete VBox instance '" ++ n ++ "'"⟩] r.2.1 r.2.2
  | _ => .exn .valueError

/-- `do_vbox_setattr` (the error message for a non-allow-listed attribute
lacks its closing quote in the source; kept verbatim). -/
def do_vbox_setattr (_env : WrapEnv) (reg : Registry) (data : List String) : HOut :=
  match data with
  | [n, a, v] =>
    match List.lookup n reg with
    | none => .ok [unkObjReply n] reg []
    | some i =>
      if !(validAttrNames.contains a) then
        .ok [⟨208, true, "Cannot set attribute '" ++ a ++ "' for '" ++ n⟩] reg []
      else
        .ok [⟨100, true, a ++ " set for '" ++ n ++ "'"⟩] (setKey n (setAttr i a v) reg) []
  | _ => .exn .valueError

/-- `do_vbox_create_nic` (the NIC/MAC assignment is commented out in the
source). -/
def do_vbox_create_nic (_env : WrapEnv) (reg : Registry) (data : List String) : HOut :=
  match data with
  | [n, _v] =>
    match List.lookup n reg with
    | none => .ok [unkObjReply n] reg []
    | some _ => .ok [⟨100, true, "OK"⟩] reg []
  | _ => .exn .valueError

/-- `do_vbox_create_udp`: after the membership check the controller call runs
first (its result is discarded; `int(vnic)` raises `ValueError` on a
non-numeric slot), then the `UDPConnection` is name-resolved and stored
under `int(vnic)`, and a final OK is sent unconditionally. -/
def do_vbox_create_udp (env : WrapEnv) (reg : Registry) (data : List String) : HOut :=
  match data with
  | [n, vnic, sport, daddr, dport] =>
    match List.lookup n reg with
    | none => .ok [unkObjReply n] reg []
    | some i =>
      match pyInt vnic with
      | none => .exn .valueError
      | some k =>
        let conn : UDPConn := ⟨sport, (env.resolveHost daddr).getD daddr, dport⟩
        .ok [⟨100, true, "OK"⟩] (setKey n { i with udp := setKey k conn i.udp } reg)
          [.ctrlCreateUdp vnic sport daddr dport env.ctrlCreateUdpResult]
  | _ => .exn .valueError

/-- `do_vbox_delete_udp`: controller call (result discarded), then the stored
entry is removed when present, then a final OK unconditionally. -/
def do_vbox_delete_udp (env : WrapEnv) (reg : Registry) (data : List String) : HOut :=
  match data with
  | [n, vnic] =>
    match List.lookup n reg with
    | none => .ok [unkObjReply n] reg []
    | some i =>
      match pyInt vnic with
      | none => .exn .valueError
      | some k =>
        .ok [⟨100, true, "OK"⟩] (setKey n { i with udp := delKey k i.udp } reg)
          [.ctrlDeleteUdp vnic env.ctrlDeleteUdpResult]
  | _ => .exn .valueError

/-- `do_vbox_create_capture`: stores the path under `int(vnic)` (no backend
call at this point; the capture is applied at start time). -/
def do_vbox_create_capture (_env : WrapEnv) (reg : Registry) (data : List String) : HOut :=
  match data with
  | [n, vnic, path] =>
    match List.lookup n reg with
    | none => .ok [unkObjReply n] reg []
    | some i =>
      match pyInt vnic with
      | none => .exn .valueError
      | some k =>
        .ok [⟨100, true, "OK"⟩] (setKey n { i with capture := setKey k path i.capture } reg) []
  | _ => .exn .valueError

/-- `do_vbox_delete_capture`. -/
def do_vbox_delete_capture (_env : WrapEnv) (reg : Registry) (data : List String) : HOut :=
  match data with
  | [n, vnic] =>
    match List.lookup n reg with
    | none => .ok [unkObjReply n] reg []
    | some i =>
      match pyInt vnic with
      | none => .exn .valueError
      | some k =>
        .ok [⟨100, true, "OK"⟩] (setKey n { i with capture := delKey k i.capture } reg) []
  | _ => .exn .valueError

/-- `do_vbox_start`: membership is checked (reply 208 on a miss) before any
controller call.  `instance.start()` marks the instance started; when it
succeeded with console support enabled, `int(self.console)` is evaluated and
raises `ValueError` on a non-numeric console attribute. -/
def do_vbox_start (_env : WrapEnv) (reg : Registry) (data : List String) : HOut :=
  match data with
  | [n] =>
    match List.lookup n reg with
    | none => .ok [unkObjReply n] reg []
    | some i =>
      if i.startResult && i.console_support && (pyInt i.console).isNone then .exn .valueError
      else
        let reg' := setKey n { i with started := true } reg
        if i.startResult then
          .ok [⟨100, true, "VBox '" ++ n ++ "' started"⟩] reg' [.ctrlStart n i.startResult]
        else
          .ok [⟨209, true, "unable to start instance '" ++ n ++ "'"⟩] reg'
            [.ctrlStart n i.startResult]
  | _ => .exn .valueError

/-- `do_vbox_stop`: no membership check — an unregistered name raises
`KeyError` at `VBOX_INSTANCES[name]`.  On an instance that never started the
controller has no `vmname`/`console` attribute: on the win32 out-of-band
power-off branch the `AttributeError` on `self.vmname` (read outside any
`try`) escapes; on the API branch the `AttributeError` on `self.console` is
raised inside the `try` and swallowed by the `except` that returns `True`
(the interface-shutdown steps are never reached), so the handler replies
100-stopped. -/
def do_vbox_stop (env : WrapEnv) (reg : Registry) (data : List String) : HOut :=
  match data with
  | [n] =>
    match List.lookup n reg with
    | none => .exn .keyError
    | some i =>
      if i.started then
        if i.stopResult then
          .ok [⟨100, true, "VBox '" ++ n ++ "' stopped"⟩] reg [.ctrlStop n i.stopResult]
        else
          .ok [⟨210, true, "unable to stop instance '" ++ n ++ "'"⟩] reg
            [.ctrlStop n i.stopResult]
      else if env.bugWorkaroundWin32 then .exn .attributeError
      else .ok [⟨100, true, "VBox '" ++ n ++ "' stopped"⟩] reg [.ctrlStop n true]
  | _ => .exn .valueError

/-- `do_vbox_reset`: no membership check (`KeyError` on a miss,
`AttributeError` when never started).  The controller's `reset` returns
`True` exactly when the console call raised and `None` when it succeeded, so
the success reply is sent on the exception path and the error reply on the
success path. -/
def do_vbox_reset (_env : WrapEnv) (reg : Registry) (data : List String) : HOut :=
  match data with
  | [n] =>
    match List.lookup n reg with
    | none => .exn .keyError
    | some i =>
      if !i.started then .exn .attributeError
      else if pyTruthy (controllerReset i.resetRaises) then
        .ok [⟨100, true, "VBox '" ++ n ++ "' rebooted"⟩] reg []
      else
        .ok [⟨210, true, "unable to reset instance '" ++ n ++ "'"⟩] reg []
  | _ => .exn .valueError

/-- `do_vbox_status`: no membership check (`KeyError` on a miss); reports
`vbc.status()` — the machine state, or 0 when no machine is known. -/
def do_vbox_status (_env : WrapEnv) (reg : Registry) (data : List String) : HOut :=
  match data with
  | [n] =>
    match List.lookup n reg with
    | none => .exn .keyError
    | some i => .ok [⟨100, true, toString (i.mach.getD 0)⟩] reg []
  | _ => .exn .valueError

/-- `do_vbox_suspend`: no membership check (`KeyError` on a miss,
`AttributeError` when never started). -/
def do_vbox_suspend (_env : WrapEnv) (reg : Registry) (data : List String) : HOut :=
  match data with
  | [n] =>
    match List.lookup n reg with
    | none => .exn .keyError
    | some i =>
      if !i.started then .exn .attributeError
      else if controllerSuspend i.pauseRaises then
        .ok [⟨100, true, "VBox '" ++ n ++ "' suspended"⟩] reg []
      else
        .ok [⟨210, true, "unable to suspend instance '" ++ n ++ "'"⟩] reg []
  | _ => .exn .valueError

/-- `do_vbox_resume`: no membership check (`KeyError` on a miss); the
controller reads `self.mach.state` outside any `try`, so a never-started
instance or one whose machine was never found raises `AttributeError`. -/
def do_vbox_resume (_env : WrapEnv) (reg : Registry) (data : List String) : HOut :=
  match data with
  | [n] =>
    match List.lookup n reg with
    | none => .exn .keyError
    | some i =>
      if !i.started then .exn .attributeError
      else
        match i.mach with
        | none => .exn .attributeError
        | some s =>
          if controllerResume s i.resumeRaises then
            .ok [⟨100, true, "VBox '" ++ n ++ "' resumed"⟩] reg []
          else
            .ok [⟨210, true, "unable to resume instance '" ++ n ++ "'"⟩] reg []
  | _ => .exn .valueError

/-- `do_vbox_clean` (`instance.clean()` is a no-op). -/
def do_vbox_clean (_env : WrapEnv) (reg : Registry) (data : List String) : HOut :=
  match data with
  | [n] =>
    match List.lookup n reg with
    | none => .ok [unkObjReply n] reg []
    | some _ => .ok [⟨100, true, "OK"⟩] reg []
  | _ => .exn .valueError

/-- `method = getattr(self, 'do_%s_%s' % (module, command)); method(data)`:
the dispatch from a validated `(module, command)` pair to its handler. -/
def invokeHandler (env : WrapEnv) (reg : Registry) (m c : String) (data : List String) : HOut :=
  match m, c with
  | "vboxwrapper", "version" => do_vboxwrapper_version env reg data
  | "vboxwrapper", "parser_test" => do_vboxwrapper_parser_test env reg data
  | "vboxwrapper", "module_list" => do_vboxwrapper_module_list env reg data
  | "vboxwrapper", "cmd_list" => do_vboxwrapper_cmd_list env reg data
  | "vboxwrapper", "working_dir" => do_vboxwrapper_working_dir env reg data
  | "vboxwrapper", "reset" => do_vboxwrapper_reset env reg data
  | "vboxwrapper", "close" => do_vboxwrapper_close env reg data
  | "vboxwrapper", "stop" => do_vboxwrapper_stop env reg data
  | "vbox", "version" => do_vbox_version env reg data
  | "vbox", "vm_list" => do_vbox_vm_list env reg data
  | "vbox", "find_vm" => do_vbox_find_vm env reg data
  | "vbox", "rename" => do_vbox_rename env reg data
  | "vbox", "create" => do_vbox_create env reg data
  | "vbox", "delete" => do_vbox_delete env reg data
  | "vbox", "setattr" => do_vbox_setattr env reg data
  | "vbox", "create_nic" => do_vbox_create_nic env reg data
  | "vbox", "create_udp" => do_vbox_create_udp env reg data
  | "vbox", "delete_udp" => do_vbox_delete_udp env reg data
  | "vbox", "create_capture" => do_vbox_create_capture env reg data
  | "vbox", "delete_capture" => do_vbox_delete_capture env reg data
  | "vbox", "start" => do_vbox_start env reg data
  | "vbox", "stop" => do_vbox_stop env reg data
  | "vbox", "reset" => do_vbox_reset env reg data
  | "vbox", "status" => do_vbox_status env reg data
  | "vbox", "suspend" => do_vbox_suspend env reg data
  | "vbox", "resume" => do_vbox_resume env reg data
  | "vbox", "clean" => do_vbox_clean env reg data
  | _, _ => .ok [] reg []

/-!
## Concrete environments used by counterexamples and witnesses
-/

/-- A `stop` run in which every `lockMachine` attempt fails and everything
else succeeds. -/
def lockFailStopEnv : StopEnv :=
  { bugWorkaroundWin32 := false
    powerDownRaises := false
    lockOk := fun _ => false
    sessionMachineOk := true
    disableOk := fun _ _ => true
    nics := 6
    saveOk := true
    unlockOk := fun _ => true }

/-- A `start` run against a machine already online (state `Running`). -/
def onlineStartEnv : StartEnv :=
  { machState := some 5
    getSessionOk := true
    netOptsOk := fun _ => true
    consoleOptsOk := fun _ => true
    launchOk := fun _ => true
    waitOk := true
    progressPercent := 100
    unlockOk := fun _ => true
    consoleOk := true }

/-- The number of final status lines of a handler outcome (`none` when the
handler let an exception escape and wrote nothing). -/
def finalsOf : HOut → Option Nat
  | .ok rs _ _ => some (finalCount rs)
  | .exn _ => none

/-!
## Helper lemmas
-/

/-- A successful association-list lookup means the key occurs among the
stored keys. -/
theorem lookup_mem_keys {α β : Type} [BEq α] [LawfulBEq α] :
    ∀ (l : List (α × β)) (a : α) (p : β), List.lookup a l = some p → a ∈ l.map Prod.fst := by
  intro l
  induction l with
  | nil => intro a p h; cases h
  | cons x xs ih =>
    obtain ⟨k, v⟩ := x
    intro a p h
    rw [List.lookup] at h
    cases hke : a == k with
    | true =>
      exact List.mem_cons.mpr (.inl (eq_of_beq hke))
    | false =>
      rw [hke] at h
      exact List.mem_cons.mpr (.inr (ih a p h))

/-- A known module is one of the two table keys. -/
theorem moduleKnown_elim {m : String} (h : moduleKnown m = true) :
    m = "vboxwrapper" ∨ m = "vbox" := by
  by_cases h1 : m = "vboxwrapper"
  · exact .inl h1
  by_cases h2 : m = "vbox"
  · exact .inr h2
  exfalso
  rw [moduleKnown, modulesTable, List.lookup, beq_eq_false_iff_ne.mpr h1, List.lookup,
    beq_eq_false_iff_ne.mpr h2] at h
  simp [List.lookup] at h

/-- For a known module, every defined handler method has a command-table
entry (the handler set and the table agree). -/
theorem hasHandler_isSome {m c : String} (hm : moduleKnown m = true)
    (hh : hasHandler m c = true) : (tableLookup m c).isSome := by
  rcases moduleKnown_elim hm with rfl | rfl
  · have h' : (("vboxwrapper" : String), c) ∈ handlerPairs := by simpa [hasHandler] using hh
    simp [handlerPairs, Prod.ext_iff] at h'
    rcases h' with rfl | rfl | rfl | rfl | rfl | rfl | rfl | rfl <;> rfl
  · have h' : (("vbox" : String), c) ∈ handlerPairs := by simpa [hasHandler] using hh
    simp [handlerPairs, Prod.ext_iff] at h'
    rcases h' with rfl | rfl | rfl | rfl | rfl | rfl | rfl | rfl | rfl | rfl | rfl | rfl | rfl |
      rfl | rfl | rfl | rfl | rfl | rfl <;> rfl

/-- Conversely, every command-table entry has a handler method. -/
theorem tableLookup_hasHandler {m c : String} {p : Nat × Nat} (h : tableLookup m c = some p) :
    hasHandler m c = true := by
  have hm : moduleKnown m = true := by
    rw [tableLookup] at h
    rw [moduleKnown]
    cases hml : modulesTable.lookup m with
    | none => rw [hml] at h; cases h
    | some cmds => rfl
  rcases moduleKnown_elim hm with rfl | rfl
  · have hc : c ∈ ([("version", 0, 0), ("parser_test", 0, 10), ("module_list", 0, 0),
        ("cmd_list", 1, 1), ("working_dir", 1, 1), ("reset", 0, 0), ("close", 0, 0),
        ("stop", 0, 0)] : List (String × Nat × Nat)).map Prod.fst :=
      lookup_mem_keys _ c p h
    simp at hc
    rcases hc with rfl | rfl | rfl | rfl | rfl | rfl | rfl | rfl <;> rfl
  · have hc : c ∈ ([("version", 0, 0), ("vm_list", 0, 0), ("find_vm", 1, 1), ("rename", 2, 2),
        ("create", 2, 2), ("delete", 1, 1), ("setattr", 3, 3), ("create_nic", 2, 2),
        ("create_udp", 5, 5), ("delete_udp", 2, 2), ("create_capture", 3, 3),
        ("delete_capture", 2, 2), ("start", 1, 1), ("stop", 1, 1), ("reset", 1, 1),
        ("status", 1, 1), ("suspend", 1, 1), ("resume", 1, 1),
        ("clean", 1, 1)] : List (String × Nat × Nat)).map Prod.fst :=
      lookup_mem_keys _ c p h
    simp at hc
    rcases hc with rfl | rfl | rfl | rfl | rfl | rfl | rfl | rfl | rfl | rfl | rfl | rfl | rfl |
      rfl | rfl | rfl | rfl | rfl | rfl <;> rfl

/-- The cache slot after a sequence of `send_reply` calls ending with reply
`r`: the last rendered line and the current time, with `CACHED_REQUEST`
untouched. -/
theorem sendReplies_fst (now : ℚ) :
    ∀ (rs : List Reply) (c : CacheState) (r : Reply),
      (sendReplies now c (rs ++ [r])).1 =
        ⟨c.cachedRequest, formatReply r, now⟩ := by
  intro rs
  induction rs with
  | nil => intro c r; rfl
  | cons x rs ih =>
    intro c r
    simp only [List.cons_append, sendReplies]
    exact ih _ r

/-- The lines written by a sequence of `send_reply` calls. -/
theorem sendReplies_snd (now : ℚ) :
    ∀ (rs : List Reply) (c : CacheState), (sendReplies now c rs).2 = rs.map formatReply := by
  intro rs
  induction rs with
  | nil => intro c; rfl
  | cons x rs ih => intro c; simp only [sendReplies, List.map_cons]; rw [ih]

/-- Splitting `finalCount` over concatenation. -/
theorem finalCount_append (a b : List Reply) :
    finalCount (a ++ b) = finalCount a + finalCount b :=
  List.countP_append _ _ _

/-- Informational lines contribute no final line. -/
theorem finalCount_infos (l : List Reply) (h : ∀ r ∈ l, r.done = false) :
    finalCount l = 0 := by
  rw [finalCount, List.countP_eq_zero]
  intro r hr
  simp [h r hr]

/-- The retry loop makes at most `n` attempts when `n` attempting iterations
remain. -/
theorem attemptLoop_count_le (attempt : Nat → Bool) (delay : ℚ) :
    ∀ n i, (attemptLoop attempt delay i n).2.1 ≤ n := by
  intro n
  induction n with
  | zero => intro i; simp [attemptLoop]
  | succ n ih =>
    intro i
    by_cases h : attempt i
    · simp [attemptLoop, h]
    · simp only [attemptLoop, h]
      simpa using Nat.add_le_add_right (ih (i + 1)) 1

/-- When the retry loop reports failure it has made all `n` available
attempts and slept `n` times. -/
theorem attemptLoop_exhaust (attempt : Nat → Bool) (delay : ℚ) :
    ∀ n i, (attemptLoop attempt delay i n).1 = false →
      (attemptLoop attempt delay i n).2.1 = n ∧
      (attemptLoop attempt delay i n).2.2 = List.replicate n delay := by
  intro n
  induction n with
  | zero => intro i _; exact ⟨rfl, rfl⟩
  | succ n ih =>
    intro i h
    by_cases ha : attempt i
    · simp [attemptLoop, ha] at h
    · have h' : (attemptLoop attempt delay (i + 1) n).1 = false := by
        simpa [attemptLoop, ha] using h
      obtain ⟨h1, h2⟩ := ih (i + 1) h'
      simp [attemptLoop, ha, h1, h2, List.replicate_succ]

/-!
## Claims
-/

/-- C1 (amended): `VBoxController_4_3.stop` reports success in every case —
including when the exclusive session cannot be acquired after exhausting the
bounded retries of `_safeLockMachine`; every return path of `stop` yields
`True`. -/
theorem stop_reports_success_always (e : StopEnv) : controllerStop e = true := by
  simp [controllerStop]

/-- C1 counterexample: a run in which every `lockMachine` attempt fails, so
the session is never acquired after exhausting the retries — yet `stop`
still returns `True`, contradicting the claim that this is the one case in
which `stop()` reports failure. -/
theorem stop_lock_failure_reports_success :
    safeLockMachine lockFailStopEnv.lockOk = false ∧ controllerStop lockFailStopEnv = true :=
  ⟨rfl, rfl⟩

/-- C4: `reset()`'s result is inverted relative to its documented intent
("return True anyway"): when the console `reset()` call succeeds the
function falls off its end and returns `None`, making `do_vbox_reset` send
the error reply 210, while an exception yields `True` and the success reply
100. -/
theorem reset_result_inverted :
    controllerReset false = none ∧
    pyTruthy (controllerReset false) = false ∧
    controllerReset true = some true ∧
    do_vbox_reset {} [("R1", { started := true })] ["R1"] =
      .ok [⟨210, true, "unable to reset instance 'R1'"⟩] [("R1", { started := true })] [] ∧
    do_vbox_reset {} [("R1", { started := true, resetRaises := true })] ["R1"] =
      .ok [⟨100, true, "VBox 'R1' rebooted"⟩]
        [("R1", { started := true, resetRaises := true })] [] :=
  ⟨rfl, rfl, rfl, rfl, rfl⟩

/-- C5 counterexample: the runtime `create_udp` path sets the adapter's
destination-address property to the string `"localhost"` verbatim (both as
the per-attempt mutation and through the whole retried `create_udp` call on
an online machine), contradicting the claim that the backend property is
never set to `"localhost"`. -/
theorem create_udp_localhost_passthrough :
    (createUdpApply {} "3000" "localhost" "3001").propDest = "localhost" ∧
    "localhost" ≠ "127.0.0.1" ∧
    (controllerCreateUdp true 5 (fun _ => true) {} "3000" "localhost" "3001").2.propDest =
      "localhost" :=
  ⟨rfl, by decide, rfl⟩

/-- C5 (amended): only the start-time adapter-configuration path
(`_net_options`) rewrites a stored destination host `"localhost"` to the
loopback literal `"127.0.0.1"` (any other host string is passed through);
the runtime `create_udp` path sets the destination property to the given
string unchanged, `"localhost"` included. -/
theorem udp_dest_rewrite_amended :
    (∀ (adp : NetAdp) (u : UDPConn), u.rhost = "localhost" →
      (netOptionsUdpApply adp u).propDest = "127.0.0.1") ∧
    (∀ (adp : NetAdp) (u : UDPConn), u.rhost ≠ "localhost" →
      (netOptionsUdpApply adp u).propDest = u.rhost) ∧
    (∀ (adp : NetAdp) (sport daddr dport : String),
      (createUdpApply adp sport daddr dport).propDest = daddr) :=
  ⟨fun adp u h => by simp [netOptionsUdpApply, h],
   fun adp u h => by simp [netOptionsUdpApply, h],
   fun _ _ _ _ => rfl⟩

/-- C5 witness: the amended statement evaluated at concrete inputs. -/
theorem udp_dest_rewrite_witness :
    (netOptionsUdpApply {} ⟨"3000", "localhost", "3001"⟩).propDest = "127.0.0.1" ∧
    (netOptionsUdpApply {} ⟨"3000", "10.0.0.1", "3001"⟩).propDest = "10.0.0.1" ∧
    (createUdpApply {} "3000" "localhost" "3001").propDest = "localhost" :=
  ⟨udp_dest_rewrite_amended.1 {} ⟨"3000", "localhost", "3001"⟩ rfl,
   udp_dest_rewrite_amended.2.1 {} ⟨"3000", "10.0.0.1", "3001"⟩ (by decide),
   udp_dest_rewrite_amended.2.2 {} "3000" "localhost" "3001"⟩

/-- C8 counterexample: with every attempt failing, `_safeLaunchVMProcess`
makes exactly 3 attempts (not the stated budget of 4) and
`_safeDisableNetAdpFromMachine` exactly 5 (not 6): the final loop iteration
reports failure without attempting. -/
theorem retry_budget_counterexample :
    (safeLaunchRun (fun _ => false)).2.1 = 3 ∧ (3 : Nat) ≠ 4 ∧
    safeLaunchVMProcess (fun _ => false) true = false ∧
    (safeDisableRun (fun _ => false)).2.1 = 5 ∧ (5 : Nat) ≠ 6 ∧
    safeDisableNetAdp (fun _ => false) = false :=
  ⟨rfl, by decide, rfl, rfl, by decide, rfl⟩

/-- C8 (amended): launching the VM process is attempted up to 3 times (a
4-iteration loop whose final iteration reports failure without attempting)
with a 0.6 time-unit sleep after each failed attempt, and disabling an
adapter is attempted up to 5 times (a 6-iteration loop) with a 1 time-unit
sleep; failure is surfaced only once every available attempt has failed. -/
theorem retry_budget_amended :
    (∀ f : Nat → Bool, (safeLaunchRun f).2.1 ≤ 3) ∧
    (∀ f : Nat → Bool, (safeLaunchRun f).1 = false →
      (safeLaunchRun f).2.1 = 3 ∧ (safeLaunchRun f).2.2 = List.replicate 3 launchDelay) ∧
    (∀ g : Nat → Bool, (safeDisableRun g).2.1 ≤ 5) ∧
    (∀ g : Nat → Bool, (safeDisableRun g).1 = false →
      (safeDisableRun g).2.1 = 5 ∧ (safeDisableRun g).2.2 = List.replicate 5 disableDelay) :=
  ⟨fun f => attemptLoop_count_le f launchDelay 3 0,
   fun f h => attemptLoop_exhaust f launchDelay 3 0 h,
   fun g => attemptLoop_count_le g disableDelay 5 0,
   fun g h => attemptLoop_exhaust g disableDelay 5 0 h⟩

/-- C8 witness: the amended statement evaluated with every attempt
failing. -/
theorem retry_budget_witness :
    (safeLaunchRun (fun _ => false)).2.1 ≤ 3 ∧
    ((safeLaunchRun (fun _ => false)).2.1 = 3 ∧
      (safeLaunchRun (fun _ => false)).2.2 = List.replicate 3 launchDelay) ∧
    (safeDisableRun (fun _ => false)).2.1 ≤ 5 ∧
    ((safeDisableRun (fun _ => false)).2.1 = 5 ∧
      (safeDisableRun (fun _ => false)).2.2 = List.replicate 5 disableDelay) :=
  ⟨retry_budget_amended.1 (fun _ => false),
   retry_budget_amended.2.1 (fun _ => false) rfl,
   retry_budget_amended.2.2.1 (fun _ => false),
   retry_budget_amended.2.2.2 (fun _ => false) rfl⟩

/-- C2: the reply cache suppresses exactly one duplicate.  A raw line equal
to the cached line within less than 1.0 time unit is served the cached reply
verbatim with no dispatch and the entry is invalidated (`CACHED_TIME = 0`);
any byte difference, or more than 1.0 elapsed, is a miss that dispatches
normally and then stores the line, the last produced reply and the current
time; and after a hit, a third identical line (at any wall-clock past 1.0)
is dispatched fresh. -/
theorem reply_cache_single_suppression :
    (∀ (d : String → List Reply) (c : CacheState) (now : ℚ) (req : String),
      req = c.cachedRequest → now - c.cachedTime < 1 →
      handleOneRequest d c now req =
        ⟨[c.cachedReply], { c with cachedTime := 0 }, false⟩) ∧
    (∀ (d : String → List Reply) (c : CacheState) (now : ℚ) (req : String),
      req ≠ c.cachedRequest → (handleOneRequest d c now req).dispatched = true) ∧
    (∀ (d : String → List Reply) (c : CacheState) (now : ℚ) (req : String),
      now - c.cachedTime > 1 → (handleOneRequest d c now req).dispatched = true) ∧
    (∀ (d : String → List Reply) (c : CacheState) (now : ℚ) (req : String)
      (rs : List Reply) (r : Reply),
      (req ≠ c.cachedRequest ∨ now - c.cachedTime > 1) → d req.trimRight = rs ++ [r] →
      (handleOneRequest d c now req).cache = ⟨req, formatReply r, now⟩ ∧
      (handleOneRequest d c now req).output = (rs ++ [r]).map formatReply) ∧
    (∀ (d : String → List Reply) (c : CacheState) (now₂ now₃ : ℚ) (req : String),
      req = c.cachedRequest → now₂ - c.cachedTime < 1 → 1 < now₃ →
      (handleOneRequest d c now₂ req).dispatched = false ∧
      (handleOneRequest d (handleOneRequest d c now₂ req).cache now₃ req).dispatched = true) := by
  refine ⟨?_, ?_, ?_, ?_, ?_⟩
  · intro d c now req h1 h2
    have hn : ¬ now - c.cachedTime > 1 := not_lt.mpr (le_of_lt h2)
    simp [handleOneRequest, check_cache, hn, h1]
  · intro d c now req h
    by_cases hn : now - c.cachedTime > 1
    · simp [handleOneRequest, check_cache, hn]
    · simp [handleOneRequest, check_cache, hn, h]
  · intro d c now req hn
    simp [handleOneRequest, check_cache, hn]
  · intro d c now req rs r hmiss hd
    have hout : handleOneRequest d c now req =
        ⟨(sendReplies now { c with cachedRequest := req } (d req.trimRight)).2,
         (sendReplies now { c with cachedRequest := req } (d req.trimRight)).1, true⟩ := by
      rcases hmiss with h | hn
      · by_cases hn : now - c.cachedTime > 1
        · simp [handleOneRequest, check_cache, hn]
        · simp [handleOneRequest, check_cache, hn, h]
      · simp [handleOneRequest, check_cache, hn]
    rw [hout, hd]
    exact ⟨sendReplies_fst now rs _ r, sendReplies_snd now (rs ++ [r]) _⟩
  · intro d c now₂ now₃ req h1 h2 h3
    have hn : ¬ now₂ - c.cachedTime > 1 := not_lt.mpr (le_of_lt h2)
    have hc : handleOneRequest d c now₂ req =
        ⟨[c.cachedReply], { c with cachedTime := 0 }, false⟩ := by
      simp [handleOneRequest, check_cache, hn, h1]
    refine ⟨by rw [hc], ?_⟩
    rw [hc]
    simp [handleOneRequest, check_cache, h3]

/-- C2 witness: a concrete request line cached at time 2, repeated at time 2
(hit, no dispatch, invalidation) and again at time 4 (fresh dispatch); a
different line and a stale line both dispatch and store. -/
theorem reply_cache_single_suppression_witness :
    (handleOneRequest (fun _ => [⟨100, true, "OK"⟩]) ⟨"vbox start R1\r\n", "100-OK\r\n", 2⟩ 2
        "vbox start R1\r\n" =
      ⟨["100-OK\r\n"], ⟨"vbox start R1\r\n", "100-OK\r\n", 0⟩, false⟩) ∧
    ((handleOneRequest (fun _ => [⟨100, true, "OK"⟩]) ⟨"vbox start R1\r\n", "100-OK\r\n", 2⟩ 2
        "vbox stop R1\r\n").dispatched = true) ∧
    ((handleOneRequest (fun _ => [⟨100, true, "OK"⟩]) ⟨"vbox start R1\r\n", "100-OK\r\n", 2⟩ 4
        "vbox start R1\r\n").dispatched = true) ∧
    ((handleOneRequest (fun _ => [⟨100, true, "OK"⟩]) ⟨"", "", 0⟩ 2 "vbox start R1\r\n").cache =
      ⟨"vbox start R1\r\n", formatReply ⟨100, true, "OK"⟩, 2⟩ ∧
     (handleOneRequest (fun _ => [⟨100, true, "OK"⟩]) ⟨"", "", 0⟩ 2 "vbox start R1\r\n").output =
      ([] ++ [(⟨100, true, "OK"⟩ : Reply)]).map formatReply) ∧
    ((handleOneRequest (fun _ => [⟨100, true, "OK"⟩]) ⟨"vbox start R1\r\n", "100-OK\r\n", 2⟩ 2
        "vbox start R1\r\n").dispatched = false ∧
     (handleOneRequest (fun _ => [⟨100, true, "OK"⟩])
        (handleOneRequest (fun _ => [⟨100, true, "OK"⟩]) ⟨"vbox start R1\r\n", "100-OK\r\n", 2⟩ 2
          "vbox start R1\r\n").cache 4 "vbox start R1\r\n").dispatched = true) :=
  ⟨reply_cache_single_suppression.1 _ _ 2 _ rfl (by norm_num),
   reply_cache_single_suppression.2.1 _ _ 2 _ (by decide),
   reply_cache_single_suppression.2.2.1 _ _ 4 _ (by norm_num),
   reply_cache_single_suppression.2.2.2.1 _ _ 2 _ [] _ (.inl (by decide)) rfl,
   reply_cache_single_suppression.2.2.2.2 _ _ 2 4 _ rfl (by norm_num) (by norm_num)⟩

/-- C6: `delete(name)` fails (reply 207, registry unchanged) on a missing
name; on an instance with an active process it invokes `stop()` first, and a
failing stop aborts the delete with reply 207 leaving the entry registered;
otherwise (stop succeeded, or no active process — then without calling
stop) the entry is removed and reply 100 sent. -/
theorem delete_stop_gating :
    (∀ (env : WrapEnv) (reg : Registry) (n : String), List.lookup n reg = none →
      do_vbox_delete env reg [n] =
        .ok [⟨207, true, "unable to delete VBox instance '" ++ n ++ "'"⟩] reg []) ∧
    (∀ (env : WrapEnv) (reg : Registry) (n : String) (i : Inst),
      List.lookup n reg = some i → i.process = true → i.stopResult = false →
      do_vbox_delete env reg [n] =
        .ok [⟨207, true, "unable to delete VBox instance '" ++ n ++ "'"⟩] reg
          [.ctrlStop n false]) ∧
    (∀ (env : WrapEnv) (reg : Registry) (n : String) (i : Inst),
      List.lookup n reg = some i → i.process = true → i.stopResult = true →
      do_vbox_delete env reg [n] =
        .ok [⟨100, true, "VBox '" ++ n ++ "' deleted"⟩] (delKey n reg) [.ctrlStop n true]) ∧
    (∀ (env : WrapEnv) (reg : Registry) (n : String) (i : Inst),
      List.lookup n reg = some i → i.process = false →
      do_vbox_delete env reg [n] =
        .ok [⟨100, true, "VBox '" ++ n ++ "' deleted"⟩] (delKey n reg) []) :=
  ⟨fun env reg n h => by simp [do_vbox_delete, vboxDelete, h],
   fun env reg n i h hp hs => by simp [do_vbox_delete, vboxDelete, h, hp, hs],
   fun env reg n i h hp hs => by simp [do_vbox_delete, vboxDelete, h, hp, hs],
   fun env reg n i h hp => by simp [do_vbox_delete, vboxDelete, h, hp]⟩

/-- C6 witness: the four delete cases at concrete registries. -/
theorem delete_stop_gating_witness :
    (do_vbox_delete {} [] ["R1"] =
      .ok [⟨207, true, "unable to delete VBox instance '" ++ "R1" ++ "'"⟩] [] []) ∧
    (do_vbox_delete {} [("R1", { process := true, stopResult := false })] ["R1"] =
      .ok [⟨207, true, "unable to delete VBox instance '" ++ "R1" ++ "'"⟩]
        [("R1", { process := true, stopResult := false })] [.ctrlStop "R1" false]) ∧
    (do_vbox_delete {} [("R1", { process := true })] ["R1"] =
      .ok [⟨100, true, "VBox '" ++ "R1" ++ "' deleted"⟩]
        (delKey "R1" [("R1", { process := true })]) [.ctrlStop "R1" true]) ∧
    (do_vbox_delete {} [("R1", {})] ["R1"] =
      .ok [⟨100, true, "VBox '" ++ "R1" ++ "' deleted"⟩] (delKey "R1" [("R1", {})]) []) :=
  ⟨delete_stop_gating.1 {} [] "R1" rfl,
   delete_stop_gating.2.1 {} [("R1", { process := true, stopResult := false })] "R1"
     { process := true, stopResult := false } rfl rfl rfl,
   delete_stop_gating.2.2.1 {} [("R1", { process := true })] "R1" { process := true } rfl rfl rfl,
   delete_stop_gating.2.2.2 {} [("R1", {})] "R1" {} rfl rfl⟩

/-- C9: `start` on an unregistered name replies 208 with the registry
unchanged and no controller invocation; the controller's `start` on a
machine already in an online sub-state returns failure having performed only
the read-only `findMachine` query (no mutating backend operation, no session,
no state change). -/
theorem start_unknown_and_online :
    (∀ (env : WrapEnv) (reg : Registry) (n : String), List.lookup n reg = none →
      do_vbox_start env reg [n] = .ok [unkObjReply n] reg []) ∧
    (∀ (e : StartEnv) (s : Nat), e.machState = some s → onlineState s = true →
      controllerStart e = (false, [BOp.findMachine]) ∧
      ∀ op ∈ (controllerStart e).2, mutatesB op = false) := by
  constructor
  · intro env reg n h
    simp [do_vbox_start, h]
  · intro e s h1 h2
    have hc : controllerStart e = (false, [BOp.findMachine]) := by
      simp [controllerStart, h1, h2]
    refine ⟨hc, ?_⟩
    rw [hc]
    intro op hop
    simp at hop
    subst hop
    rfl

/-- C9 witness: `start "ghost"` on an empty registry, and a controller start
against a machine in state `Running`. -/
theorem start_unknown_and_online_witness :
    (do_vbox_start {} [] ["ghost"] = .ok [unkObjReply "ghost"] [] []) ∧
    (controllerStart onlineStartEnv = (false, [BOp.findMachine]) ∧
      ∀ op ∈ (controllerStart onlineStartEnv).2, mutatesB op = false) :=
  ⟨start_unknown_and_online.1 {} [] "ghost" rfl,
   start_unknown_and_online.2 onlineStartEnv 5 rfl rfl⟩

/-- C10: for a registered name (and a slot token that parses as an integer),
`create_udp` and `delete_udp` reply `100-OK` whatever the discarded
controller result was; `create_udp` stores the name-resolved tunnel under
`int(slot)` after the controller call, and `delete_udp` removes the entry. -/
theorem udp_commands_always_ok :
    (∀ (env : WrapEnv) (reg : Registry) (n vnic sport daddr dport : String) (i : Inst) (k : Int),
      List.lookup n reg = some i → pyInt vnic = some k →
      do_vbox_create_udp env reg [n, vnic, sport, daddr, dport] =
        .ok [⟨100, true, "OK"⟩]
          (setKey n
            { i with udp := setKey k ⟨sport, (env.resolveHost daddr).getD daddr, dport⟩ i.udp }
            reg)
          [.ctrlCreateUdp vnic sport daddr dport env.ctrlCreateUdpResult]) ∧
    (∀ (env : WrapEnv) (reg : Registry) (n vnic : String) (i : Inst) (k : Int),
      List.lookup n reg = some i → pyInt vnic = some k →
      do_vbox_delete_udp env reg [n, vnic] =
        .ok [⟨100, true, "OK"⟩] (setKey n { i with udp := delKey k i.udp } reg)
          [.ctrlDeleteUdp vnic env.ctrlDeleteUdpResult]) :=
  ⟨fun env reg n vnic sport daddr dport i k h hk => by
      simp [do_vbox_create_udp, h, hk],
   fun env reg n vnic i k h hk => by
      simp [do_vbox_delete_udp, h, hk]⟩

/-- C10 witness: both commands on a registered instance with slot `"0"`;
with the default environment the unresolvable host is stored unchanged and
the discarded controller result is `some true`. -/
theorem udp_commands_always_ok_witness :
    (do_vbox_create_udp {} [("R1", {})] ["R1", "0", "3000", "localhost", "3001"] =
      .ok [⟨100, true, "OK"⟩] [("R1", { udp := [(0, ⟨"3000", "localhost", "3001"⟩)] })]
        [.ctrlCreateUdp "0" "3000" "localhost" "3001" (some true)]) ∧
    (do_vbox_delete_udp {} [("R1", { udp := [(0, ⟨"3000", "localhost", "3001"⟩)] })]
        ["R1", "0"] =
      .ok [⟨100, true, "OK"⟩] [("R1", {})] [.ctrlDeleteUdp "0" (some true)]) :=
  ⟨udp_commands_always_ok.1 {} [("R1", {})] "R1" "0" "3000" "localhost" "3001" {} 0 rfl (by decide),
   udp_commands_always_ok.2 {} [("R1", { udp := [(0, ⟨"3000", "localhost", "3001"⟩)] })]
     "R1" "0" { udp := [(0, ⟨"3000", "localhost", "3001"⟩)] } 0 rfl (by decide)⟩

/-- C7: the dispatch validation chain — fewer than two tokens replies 200
with no handler invoked; an unknown module 201; an unknown command in a
known module 202; an argument count outside the declared bounds 203 with the
actual count and the min/max in the message; and a line passing all checks
invokes exactly the one matching handler with the argument list. -/
theorem dispatch_validation :
    (∀ ts : List String, ts.length < 2 →
      handleTokens ts = .reply ⟨200, true, "At least a module and a command must be specified"⟩) ∧
    (∀ (m c : String) (data : List String), moduleKnown m = false →
      handleTokens (m :: c :: data) = .reply ⟨201, true, "Unknown module '" ++ m ++ "'"⟩) ∧
    (∀ (m c : String) (data : List String), moduleKnown m = true → tableLookup m c = none →
      handleTokens (m :: c :: data) = .reply ⟨202, true, "Unknown command '" ++ c ++ "'"⟩) ∧
    (∀ (m c : String) (data : List String) (mn mx : Nat), moduleKnown m = true →
      tableLookup m c = some (mn, mx) → (data.length < mn ∨ mx < data.length) →
      handleTokens (m :: c :: data) = .reply ⟨203, true, badParamMsg data.length mn mx⟩) ∧
    (∀ (m c : String) (data : List String) (mn mx : Nat), moduleKnown m = true →
      tableLookup m c = some (mn, mx) → mn ≤ data.length → data.length ≤ mx →
      handleTokens (m :: c :: data) = .invoke m c data) := by
  refine ⟨?_, ?_, ?_, ?_, ?_⟩
  · intro ts h
    match ts with
    | [] => rfl
    | [x] => rfl
    | x :: y :: r => simp at h; omega
  · intro m c data h
    simp [handleTokens, h]
  · intro m c data hm ht
    have hh : hasHandler m c = false := by
      cases hH : hasHandler m c
      · rfl
      · have := hasHandler_isSome hm hH
        rw [ht] at this
        cases this
    simp [handleTokens, hm, hh]
  · intro m c data mn mx hm ht hcnt
    have hh := tableLookup_hasHandler ht
    have hcond : (data.length < mn || data.length > mx) = true := by
      rcases hcnt with h | h <;> simp [h]
    simp [handleTokens, hm, hh, ht, hcond]
  · intro m c data mn mx hm ht h1 h2
    have hh := tableLookup_hasHandler ht
    have hcond : (data.length < mn || data.length > mx) = false := by
      simp
      omega
    simp [handleTokens, hm, hh, ht, hcond]

/-- C7 witness: each validation outcome at a concrete token list. -/
theorem dispatch_validation_witness :
    (handleTokens ["vbox"] =
      .reply ⟨200, true, "At least a module and a command must be specified"⟩) ∧
    (handleTokens ["frob", "start", "R1"] =
      .reply ⟨201, true, "Unknown module '" ++ "frob" ++ "'"⟩) ∧
    (handleTokens ["vbox", "frobnicate"] =
      .reply ⟨202, true, "Unknown command '" ++ "frobnicate" ++ "'"⟩) ∧
    (handleTokens ["vbox", "start", "R1", "R2"] =
      .reply ⟨203, true, badParamMsg 2 1 1⟩) ∧
    (handleTokens ["vbox", "start", "R1"] = .invoke "vbox" "start" ["R1"]) :=
  ⟨dispatch_validation.1 ["vbox"] (by decide),
   dispatch_validation.2.1 "frob" "start" ["R1"] rfl,
   dispatch_validation.2.2.1 "vbox" "frobnicate" [] rfl rfl,
   dispatch_validation.2.2.2.1 "vbox" "start" ["R1", "R2"] 1 1 rfl rfl (.inr (by decide)),
   dispatch_validation.2.2.2.2 "vbox" "start" ["R1"] 1 1 rfl rfl (by decide) (by decide)⟩

/-- Informational lines followed by a single final OK yield one final line. -/
theorem finalsOf_infos_ok (l : List Reply) (reg : Registry) (acts : List Act)
    (h : ∀ r ∈ l, r.done = false) :
    finalsOf (.ok (l ++ [⟨100, true, "OK"⟩]) reg acts) = some 1 := by
  simp [finalsOf, finalCount_append, finalCount_infos l h]
  rfl

/-- C3 counterexample: handlers that do raise or multi-reply — `vbox stop` on
an unregistered name raises `KeyError`; `vboxwrapper working_dir` sends two
final status lines; `vbox create_udp` with a non-integer slot raises
`ValueError`; `vbox suspend` on a registered instance that never started
raises `AttributeError`. -/
theorem handlers_exception_counterexample :
    invokeHandler {} [] "vbox" "stop" ["R1"] = .exn .keyError ∧
    invokeHandler {} [] "vboxwrapper" "working_dir" ["/tmp"] =
      .ok [⟨100, true, "OK"⟩, ⟨100, true, "OK"⟩] [] [] ∧
    finalCount [⟨100, true, "OK"⟩, ⟨100, true, "OK"⟩] = 2 ∧
    invokeHandler {} [("R1", {})] "vbox" "create_udp"
      ["R1", "x", "3000", "127.0.0.1", "3001"] = .exn .valueError ∧
    invokeHandler {} [("R1", {})] "vbox" "suspend" ["R1"] = .exn .attributeError :=
  ⟨rfl, rfl, rfl, rfl, rfl⟩

/-- C3 (amended): every command reaching its handler produces exactly one
final status line (listings precede it with informational lines), except
where the code deviates: `working_dir` sends two final lines; the handlers
`stop`/`reset`/`status`/`suspend`/`resume` skip the registry check and raise
`KeyError` on an unregistered name; `reset`/`suspend`/`resume` read the
unset `vmname` outside any `try` and raise `AttributeError` on a registered
instance that never started (`resume` also needs a known backend machine),
while `stop` on such an instance raises `AttributeError` only on the win32
out-of-band power-off branch — on the API branch the `AttributeError` is
swallowed inside the power-down `try` and `stop` replies 100-stopped; the
slot commands raise `ValueError` on a non-integer slot token; `start` raises
`ValueError` when a successful start with console support evaluates
`int(console)` on a non-numeric console attribute. -/
theorem handlers_reply_discipline (env : WrapEnv) (reg : Registry) :
    (∀ data, finalsOf (invokeHandler env reg "vboxwrapper" "version" data) = some 1) ∧
    (∀ data, finalsOf (invokeHandler env reg "vboxwrapper" "parser_test" data) = some 1) ∧
    (∀ data, finalsOf (invokeHandler env reg "vboxwrapper" "module_list" data) = some 1) ∧
    (∀ m, finalsOf (invokeHandler env reg "vboxwrapper" "cmd_list" [m]) = some 1) ∧
    (∀ d, finalsOf (invokeHandler env reg "vboxwrapper" "working_dir" [d]) = some 2) ∧
    (∀ data, finalsOf (invokeHandler env reg "vboxwrapper" "reset" data) = some 1) ∧
    (∀ data, finalsOf (invokeHandler env reg "vboxwrapper" "close" data) = some 1) ∧
    (∀ data, finalsOf (invokeHandler env reg "vboxwrapper" "stop" data) = some 1) ∧
    (∀ data, finalsOf (invokeHandler env reg "vbox" "version" data) = some 1) ∧
    (∀ data, finalsOf (invokeHandler env reg "vbox" "vm_list" data) = some 1) ∧
    (∀ n, finalsOf (invokeHandler env reg "vbox" "find_vm" [n]) = some 1) ∧
    (∀ o n, finalsOf (invokeHandler env reg "vbox" "rename" [o, n]) = some 1) ∧
    (∀ t n, finalsOf (invokeHandler env reg "vbox" "create" [t, n]) = some 1) ∧
    (∀ n, finalsOf (invokeHandler env reg "vbox" "delete" [n]) = some 1) ∧
    (∀ n a v, finalsOf (invokeHandler env reg "vbox" "setattr" [n, a, v]) = some 1) ∧
    (∀ n v, finalsOf (invokeHandler env reg "vbox" "create_nic" [n, v]) = some 1) ∧
    (∀ n vnic sp da dp, (List.lookup n reg).isSome → (pyInt vnic).isSome →
      finalsOf (invokeHandler env reg "vbox" "create_udp" [n, vnic, sp, da, dp]) = some 1) ∧
    (∀ n vnic sp da dp, List.lookup n reg = none →
      finalsOf (invokeHandler env reg "vbox" "create_udp" [n, vnic, sp, da, dp]) = some 1) ∧
    (∀ n vnic, (List.lookup n reg).isSome → (pyInt vnic).isSome →
      finalsOf (invokeHandler env reg "vbox" "delete_udp" [n, vnic]) = some 1) ∧
    (∀ n vnic, List.lookup n reg = none →
      finalsOf (invokeHandler env reg "vbox" "delete_udp" [n, vnic]) = some 1) ∧
    (∀ n vnic p, (List.lookup n reg).isSome → (pyInt vnic).isSome →
      finalsOf (invokeHandler env reg "vbox" "create_capture" [n, vnic, p]) = some 1) ∧
    (∀ n vnic p, List.lookup n reg = none →
      finalsOf (invokeHandler env reg "vbox" "create_capture" [n, vnic, p]) = some 1) ∧
    (∀ n vnic, (List.lookup n reg).isSome → (pyInt vnic).isSome →
      finalsOf (invokeHandler env reg "vbox" "delete_capture" [n, vnic]) = some 1) ∧
    (∀ n vnic, List.lookup n reg = none →
      finalsOf (invokeHandler env reg "vbox" "delete_capture" [n, vnic]) = some 1) ∧
    (∀ n, List.lookup n reg = none →
      finalsOf (invokeHandler env reg "vbox" "start" [n]) = some 1) ∧
    (∀ n i, List.lookup n reg = some i → (i.startResult && i.console_support) = true →
      (pyInt i.console).isSome →
      finalsOf (invokeHandler env reg "vbox" "start" [n]) = some 1) ∧
    (∀ n i, List.lookup n reg = some i → (i.startResult && i.console_support) = false →
      finalsOf (invokeHandler env reg "vbox" "start" [n]) = some 1) ∧
    (∀ n, List.lookup n reg = none →
      invokeHandler env reg "vbox" "stop" [n] = .exn .keyError ∧
      invokeHandler env reg "vbox" "reset" [n] = .exn .keyError ∧
      invokeHandler env reg "vbox" "status" [n] = .exn .keyError ∧
      invokeHandler env reg "vbox" "suspend" [n] = .exn .keyError ∧
      invokeHandler env reg "vbox" "resume" [n] = .exn .keyError) ∧
    (∀ n i, List.lookup n reg = some i → i.started = true →
      finalsOf (invokeHandler env reg "vbox" "stop" [n]) = some 1 ∧
      finalsOf (invokeHandler env reg "vbox" "reset" [n]) = some 1 ∧
      finalsOf (invokeHandler env reg "vbox" "suspend" [n]) = some 1) ∧
    (∀ n i, List.lookup n reg = some i →
      finalsOf (invokeHandler env reg "vbox" "status" [n]) = some 1) ∧
    (∀ n i s, List.lookup n reg = some i → i.started = true → i.mach = some s →
      finalsOf (invokeHandler env reg "vbox" "resume" [n]) = some 1) ∧
    (∀ n, finalsOf (invokeHandler env reg "vbox" "clean" [n]) = some 1) ∧
    (∀ n i, List.lookup n reg = some i → i.started = false → env.bugWorkaroundWin32 = false →
      finalsOf (invokeHandler env reg "vbox" "stop" [n]) = some 1) ∧
    (∀ n i, List.lookup n reg = some i → i.started = false → env.bugWorkaroundWin32 = true →
      invokeHandler env reg "vbox" "stop" [n] = .exn .attributeError) := by
  refine ⟨?_, ?_, ?_, ?_, ?_, ?_, ?_, ?_, ?_, ?_, ?_, ?_, ?_, ?_, ?_, ?_, ?_, ?_, ?_, ?_, ?_,
    ?_, ?_, ?_, ?_, ?_, ?_, ?_, ?_, ?_, ?_, ?_, ?_, ?_⟩
  · intro data
    show finalsOf (do_vboxwrapper_version env reg data) = some 1
    rfl
  · intro data
    show finalsOf (do_vboxwrapper_parser_test env reg data) = some 1
    exact finalsOf_infos_ok _ _ _ (by
      intro r hr
      obtain ⟨p, -, rfl⟩ := List.mem_map.mp hr
      rfl)
  · intro data
    show finalsOf (do_vboxwrapper_module_list env reg data) = some 1
    exact finalsOf_infos_ok _ _ _ (by
      intro r hr
      obtain ⟨p, -, rfl⟩ := List.mem_map.mp hr
      rfl)
  · intro m
    show finalsOf (do_vboxwrapper_cmd_list env reg [m]) = some 1
    cases h : modulesTable.lookup m with
    | none => simp [do_vboxwrapper_cmd_list, h, finalsOf, finalCount]
    | some cmds =>
      have := finalsOf_infos_ok (cmds.map fun p =>
          (⟨101, false, p.1 ++ " (min/max args: " ++ toString p.2.1 ++ "/" ++
            toString p.2.2 ++ ")"⟩ : Reply)) reg []
        (by intro r hr; obtain ⟨p, -, rfl⟩ := List.mem_map.mp hr; rfl)
      simpa [do_vboxwrapper_cmd_list, h] using this
  · intro d
    show finalsOf (do_vboxwrapper_working_dir env reg [d]) = some 2
    cases h : env.chdirOk d <;> simp [do_vboxwrapper_working_dir, h, finalsOf, finalCount]
  · intro data
    show finalsOf (do_vboxwrapper_reset env reg data) = some 1
    rfl
  · intro data
    show finalsOf (do_vboxwrapper_close env reg data) = some 1
    rfl
  · intro data
    show finalsOf (do_vboxwrapper_stop env reg data) = some 1
    rfl
  · intro data
    show finalsOf (do_vbox_version env reg data) = some 1
    cases hm : env.managerPresent <;> cases ht : env.versionTooOld <;>
      cases hw : env.win32NoInstallPath <;>
      simp [do_vbox_version, hm, ht, hw, finalsOf, finalCount]
  · intro data
    show finalsOf (do_vbox_vm_list env reg data) = some 1
    cases hm : env.managerPresent
    · simp [do_vbox_vm_list, hm, finalsOf, finalCount]
    · have := finalsOf_infos_ok (env.machines.map fun n => (⟨101, false, n⟩ : Reply)) reg []
        (by intro r hr; obtain ⟨p, -, rfl⟩ := List.mem_map.mp hr; rfl)
      simpa [do_vbox_vm_list, hm] using this
  · intro n
    show finalsOf (do_vbox_find_vm env reg [n]) = some 1
    cases h : env.findVmOk n <;> simp [do_vbox_find_vm, h, finalsOf, finalCount]
  · intro o n
    show finalsOf (do_vbox_rename env reg [o, n]) = some 1
    cases h : List.lookup o reg <;> simp [do_vbox_rename, h, finalsOf, finalCount]
  · intro t n
    show finalsOf (do_vbox_create env reg [t, n]) = some 1
    by_cases h1 : t = "vbox"
    · by_cases h2 : (List.lookup n reg).isSome
      · simp [do_vbox_create, vboxCreate, h1, h2, finalsOf, finalCount]
      · simp [do_vbox_create, vboxCreate, h1, h2, finalsOf, finalCount]
    · simp [do_vbox_create, vboxCreate, h1, finalsOf, finalCount]
  · intro n
    show finalsOf (do_vbox_delete env reg [n]) = some 1
    cases h : List.lookup n reg with
    | none => simp [do_vbox_delete, vboxDelete, h, finalsOf, finalCount]
    | some i =>
      cases hp : i.process <;> cases hs : i.stopResult <;>
        simp [do_vbox_delete, vboxDelete, h, hp, hs, finalsOf, finalCount]
  · intro n a v
    show finalsOf (do_vbox_setattr env reg [n, a, v]) = some 1
    cases h : List.lookup n reg with
    | none => simp [do_vbox_setattr, h, finalsOf, finalCount, unkObjReply]
    | some i =>
      by_cases ha : a ∈ validAttrNames <;>
        simp [do_vbox_setattr, h, ha, finalsOf, finalCount]
  · intro n v
    show finalsOf (do_vbox_create_nic env reg [n, v]) = some 1
    cases h : List.lookup n reg <;> simp [do_vbox_create_nic, h, finalsOf, finalCount, unkObjReply]
  · intro n vnic sp da dp h hk
    show finalsOf (do_vbox_create_udp env reg [n, vnic, sp, da, dp]) = some 1
    obtain ⟨i, hi⟩ := Option.isSome_iff_exists.mp h
    obtain ⟨k, hkk⟩ := Option.isSome_iff_exists.mp hk
    simp [do_vbox_create_udp, hi, hkk, finalsOf, finalCount]
  · intro n vnic sp da dp h
    show finalsOf (do_vbox_create_udp env reg [n, vnic, sp, da, dp]) = some 1
    simp [do_vbox_create_udp, h, finalsOf, finalCount, unkObjReply]
  · intro n vnic h hk
    show finalsOf (do_vbox_delete_udp env reg [n, vnic]) = some 1
    obtain ⟨i, hi⟩ := Option.isSome_iff_exists.mp h
    obtain ⟨k, hkk⟩ := Option.isSome_iff_exists.mp hk
    simp [do_vbox_delete_udp, hi, hkk, finalsOf, finalCount]
  · intro n vnic h
    show finalsOf (do_vbox_delete_udp env reg [n, vnic]) = some 1
    simp [do_vbox_delete_udp, h, finalsOf, finalCount, unkObjReply]
  · intro n vnic p h hk
    show finalsOf (do_vbox_create_capture env reg [n, vnic, p]) = some 1
    obtain ⟨i, hi⟩ := Option.isSome_iff_exists.mp h
    obtain ⟨k, hkk⟩ := Option.isSome_iff_exists.mp hk
    simp [do_vbox_create_capture, hi, hkk, finalsOf, finalCount]
  · intro n vnic p h
    show finalsOf (do_vbox_create_capture env reg [n, vnic, p]) = some 1
    simp [do_vbox_create_capture, h, finalsOf, finalCount, unkObjReply]
  · intro n vnic h hk
    show finalsOf (do_vbox_delete_capture env reg [n, vnic]) = some 1
    obtain ⟨i, hi⟩ := Option.isSome_iff_exists.mp h
    obtain ⟨k, hkk⟩ := Option.isSome_iff_exists.mp hk
    simp [do_vbox_delete_capture, hi, hkk, finalsOf, finalCount]
  · intro n vnic h
    show finalsOf (do_vbox_delete_capture env reg [n, vnic]) = some 1
    simp [do_vbox_delete_capture, h, finalsOf, finalCount, unkObjReply]
  · intro n h
    show finalsOf (do_vbox_start env reg [n]) = some 1
    simp [do_vbox_start, h, finalsOf, finalCount, unkObjReply]
  · intro n i h hsc hpc
    show finalsOf (do_vbox_start env reg [n]) = some 1
    cases hk : pyInt i.console with
    | none => rw [hk] at hpc; cases hpc
    | some k =>
      cases hs1 : i.startResult with
      | false => rw [hs1] at hsc; simp at hsc
      | true => simp [do_vbox_start, h, hk, hs1, finalsOf, finalCount]
  · intro n i h hsc
    show finalsOf (do_vbox_start env reg [n]) = some 1
    cases hs1 : i.startResult with
    | false => simp [do_vbox_start, h, hs1, finalsOf, finalCount]
    | true =>
      have hcs : i.console_support = false := by rw [hs1] at hsc; simpa using hsc
      simp [do_vbox_start, h, hs1, hcs, finalsOf, finalCount]
  · intro n h
    refine ⟨?_, ?_, ?_, ?_, ?_⟩
    · show do_vbox_stop env reg [n] = .exn .keyError
      simp [do_vbox_stop, h]
    · show do_vbox_reset env reg [n] = .exn .keyError
      simp [do_vbox_reset, h]
    · show do_vbox_status env reg [n] = .exn .keyError
      simp [do_vbox_status, h]
    · show do_vbox_suspend env reg [n] = .exn .keyError
      simp [do_vbox_suspend, h]
    · show do_vbox_resume env reg [n] = .exn .keyError
      simp [do_vbox_resume, h]
  · intro n i h hst
    refine ⟨?_, ?_, ?_⟩
    · show finalsOf (do_vbox_stop env reg [n]) = some 1
      cases hs : i.stopResult <;> simp [do_vbox_stop, h, hst, hs, finalsOf, finalCount]
    · show finalsOf (do_vbox_reset env reg [n]) = some 1
      cases hr : i.resetRaises <;>
        simp [do_vbox_reset, h, hst, hr, controllerReset, pyTruthy, finalsOf, finalCount]
    · show finalsOf (do_vbox_suspend env reg [n]) = some 1
      cases hp : i.pauseRaises <;>
        simp [do_vbox_suspend, h, hst, hp, controllerSuspend, finalsOf, finalCount]
  · intro n i h
    show finalsOf (do_vbox_status env reg [n]) = some 1
    simp [do_vbox_status, h, finalsOf, finalCount]
  · intro n i s h hst hm
    show finalsOf (do_vbox_resume env reg [n]) = some 1
    cases hr : controllerResume s i.resumeRaises <;>
      simp [do_vbox_resume, h, hst, hm, hr, finalsOf, finalCount]
  · intro n
    show finalsOf (do_vbox_clean env reg [n]) = some 1
    cases h : List.lookup n reg <;> simp [do_vbox_clean, h, finalsOf, finalCount, unkObjReply]
  · intro n i h hst hw
    show finalsOf (do_vbox_stop env reg [n]) = some 1
    simp [do_vbox_stop, h, hst, hw, finalsOf, finalCount]
  · intro n i h hst hw
    show do_vbox_stop env reg [n] = .exn .attributeError
    simp [do_vbox_stop, h, hst, hw]

/-- C3 witness: the amended statement applied to a concrete environment and
registry (instance `"R1"` started, `"R2"` registered but never started). -/
theorem handlers_reply_discipline_witness :
    finalsOf (invokeHandler {} [("R1", { started := true })] "vbox" "stop" ["R1"]) = some 1 ∧
    invokeHandler {} [("R1", { started := true })] "vbox" "stop" ["ghost"] = .exn .keyError ∧
    finalsOf (invokeHandler {} [("R1", { started := true })] "vbox" "create_udp"
      ["R1", "0", "3000", "127.0.0.1", "3001"]) = some 1 ∧
    finalsOf (invokeHandler {} [("R1", { started := true })] "vboxwrapper" "working_dir"
      ["/tmp"]) = some 2 ∧
    finalsOf (invokeHandler {} [("R1", { started := true })] "vbox" "start" ["R1"]) = some 1 ∧
    finalsOf (invokeHandler {} [("R2", {})] "vbox" "stop" ["R2"]) = some 1 ∧
    invokeHandler { bugWorkaroundWin32 := true } [("R2", {})] "vbox" "stop" ["R2"] =
      .exn .attributeError :=
  ⟨((handlers_reply_discipline {} [("R1", { started := true })]
      ).2.2.2.2.2.2.2.2.2.2.2.2.2.2.2.2.2.2.2.2.2.2.2.2.2.2.2.2.1 "R1"
      { started := true } rfl rfl).1,
   ((handlers_reply_discipline {} [("R1", { started := true })]
      ).2.2.2.2.2.2.2.2.2.2.2.2.2.2.2.2.2.2.2.2.2.2.2.2.2.2.2.1 "ghost" rfl).1,
   (handlers_reply_discipline {} [("R1", { started := true })]
      ).2.2.2.2.2.2.2.2.2.2.2.2.2.2.2.2.1 "R1" "0" "3000" "127.0.0.1" "3001" rfl rfl,
   (handlers_reply_discipline {} [("R1", { started := true })]).2.2.2.2.1 "/tmp",
   (handlers_reply_discipline {} [("R1", { started := true })]
      ).2.2.2.2.2.2.2.2.2.2.2.2.2.2.2.2.2.2.2.2.2.2.2.2.2.2.1 "R1"
      { started := true } rfl rfl,
   (handlers_reply_discipline {} [("R2", {})]
      ).2.2.2.2.2.2.2.2.2.2.2.2.2.2.2.2.2.2.2.2.2.2.2.2.2.2.2.2.2.2.2.2.1 "R2" {} rfl rfl rfl,
   (handlers_reply_discipline { bugWorkaroundWin32 := true } [("R2", {})]
      ).2.2.2.2.2.2.2.2.2.2.2.2.2.2.2.2.2.2.2.2.2.2.2.2.2.2.2.2.2.2.2.2.2 "R2" {} rfl rfl rfl⟩

end VBoxWrapper
